import Mathlib

/-!
Shallow embedding of the merge-game engine (`MergerGame` class,
`src/web/Game/mergerGame.ts`) together with proofs checking the
natural-language specification against it.

Conventions of the embedding:
* JavaScript numbers are modelled by `ℚ` (exact arithmetic).
* `Math.sqrt` appears in the source in two ways.  Where the source only
  *compares* a square root against a nonnegative threshold
  (`bodiesAreColliding`, the speed clamp in `updateShapePhysics`), the
  comparison is encoded as the equivalent squared comparison, which is exact.
  Where the source *uses* the value (collision normals, velocity rescaling)
  we use `ratSqrt`, a rational stand-in that is exact on perfect squares;
  no theorem below depends on its value at a non-perfect-square argument.
* `Math.pow(ANGULAR_DAMPING, deltaTime)` is modelled by `ratPow`, exact for
  integer exponents; no theorem below depends on its value elsewhere
  (in every concrete evaluation the multiplied angular velocity is 0).
* `Math.random()` is modelled by an explicit stream of rationals (`rng`)
  carried in the state and consumed by `takeRand`.
* The two outward callbacks `onScoreUpdate` / `onGameOver` and the committed
  fusions are recorded in ghost event logs (`scoreEvents`, `gameOverEvents`,
  `fusionEvents`); the logs are append-only observations and feed no
  computation, mirroring that the callbacks return `void`.
* The JavaScript `Set<IShape>` used during a merge pass relies on object
  identity; shapes are therefore addressed by their index in the `shapes`
  array during a pass, which is faithful because the array is not otherwise
  mutated inside `checkForMerges`.
* The debug-only `mergeCandidate` flag mutation inside `bodiesAreColliding`
  is omitted (the field itself and `clearMergeCandidateFlags` are kept);
  it feeds rendering only.
* DOM listener bookkeeping (`setupControls`, `dispose`) is not modelled;
  the public `handleInteraction` entry point carries the same semantics.
-/

namespace Merger

/-- Shape tiers of the game, in merge order (source: `enum ShapeType`). -/
inductive ShapeType where
  | circle
  | square
  | triangle
  | trapezoid
  | pentagon
  | rhombus
  | octagon
  | star
deriving DecidableEq

/-- 2D vector (source: `interface Vector`). -/
structure Vec where
  x : ℚ
  y : ℚ
deriving DecidableEq

/-- Physical shape (source: `interface IShape`).  The optional fields
`restTimer` / `isResting` / `mergeCandidate` are modelled as always present
with the falsy defaults `0` / `false` / `false`, which matches the source's
`if (!shape.restTimer) shape.restTimer = 0` initialisation. -/
structure Shape where
  type : ShapeType
  position : Vec
  velocity : Vec
  radius : ℚ
  rotation : ℚ
  angularVelocity : ℚ
  color : String
  isStatic : Bool
  restTimer : ℚ
  isResting : Bool
  mergeCandidate : Bool
deriving DecidableEq

/-- Source constant `PHYSICS.GRAVITY`. -/
def GRAVITY : ℚ := 980

/-- Source constant `PHYSICS.FRICTION`. -/
def FRICTION : ℚ := 1/20

/-- Source constant `PHYSICS.RESTITUTION`. -/
def RESTITUTION : ℚ := 1/2

/-- Source constant `PHYSICS.MOVE_SPEED`. -/
def MOVE_SPEED : ℚ := 300

/-- Source constant `PHYSICS.MAX_VELOCITY`. -/
def MAX_VELOCITY : ℚ := 2000

/-- Source constant `PHYSICS.MAX_ANGULAR_VELOCITY`. -/
def MAX_ANGULAR_VELOCITY : ℚ := 4

/-- Source constant `PHYSICS.ANGULAR_DAMPING`. -/
def ANGULAR_DAMPING : ℚ := 95/100

/-- Source constant `CANVAS.DROP_ZONE_HEIGHT`. -/
def DROP_ZONE_HEIGHT : ℚ := 100

/-- Source constant `MERGE_THRESHOLD_MULTIPLIER`. -/
def MERGE_THRESHOLD_MULTIPLIER : ℚ := 115/100

/-- Source instance field `mergeCheckDelay` (never reassigned). -/
def mergeCheckDelay : ℚ := 1/2

/-- Source table `MERGE_HIERARCHY`; Star has no successor. -/
def MERGE_HIERARCHY : ShapeType → Option ShapeType
  | .circle => some .square
  | .square => some .triangle
  | .triangle => some .trapezoid
  | .trapezoid => some .pentagon
  | .pentagon => some .rhombus
  | .rhombus => some .octagon
  | .octagon => some .star
  | .star => none

/-- Source table `MERGE_POINTS`. -/
def MERGE_POINTS : ShapeType → ℚ
  | .circle => 0
  | .square => 10
  | .triangle => 25
  | .trapezoid => 50
  | .pentagon => 100
  | .rhombus => 200
  | .octagon => 400
  | .star => 800

/-- Source table `shapeSizes` (constructor). -/
def shapeSizes : ShapeType → ℚ
  | .circle => 25
  | .square => 35
  | .triangle => 45
  | .trapezoid => 55
  | .pentagon => 65
  | .rhombus => 75
  | .octagon => 85
  | .star => 95

/-- Source table `shapeColors` (constructor); rendering only. -/
def shapeColors : ShapeType → String
  | .circle => "#FF5733"
  | .square => "#33FF57"
  | .triangle => "#3357FF"
  | .trapezoid => "#FFD700"
  | .pentagon => "#F033FF"
  | .rhombus => "#00FFFF"
  | .octagon => "#FF1493"
  | .star => "#FFFF00"

/-- Source table `shapeCollisionModifiers` (constructor). -/
def shapeCollisionModifiers : ShapeType → ℚ
  | .circle => 1
  | .square => 1
  | .triangle => 11/10
  | .trapezoid => 1
  | .pentagon => 1
  | .rhombus => 1
  | .octagon => 1
  | .star => 1

/-- Rational stand-in for the floating-point `Math.sqrt`, exact on rationals
whose numerator and denominator are perfect squares; it is zero exactly on
nonpositive arguments, which is what the `distance === 0` guard of
`resolveCollision` relies on. -/
def ratSqrt (q : ℚ) : ℚ := (Nat.sqrt q.num.toNat : ℚ) / (Nat.sqrt q.den : ℚ)

/-- Rational stand-in for `Math.pow`, exact for integer exponents.  It is
applied only to the angular damping factor; no theorem below depends on its
value at a non-integer exponent. -/
def ratPow (b e : ℚ) : ℚ := if e.den = 1 then b ^ e.num else 1

/-- JavaScript `||` fallback on a numeric config entry: `0` is falsy and is
silently replaced by the default (source: `this.config.gravity ||
MergerGame.PHYSICS.GRAVITY` and friends in `updatePhysics`). -/
def orDefault (v d : ℚ) : ℚ := if v = 0 then d else v

/-- Source `createShape`. -/
def createShape (type : ShapeType) (position : Vec) (radius : ℚ)
    (color : String) (rotation : ℚ) : Shape :=
  { type := type
    position := position
    velocity := ⟨0, 0⟩
    radius := radius
    rotation := rotation
    angularVelocity := 0
    color := color
    isStatic := true
    restTimer := 0
    isResting := false
    mergeCandidate := false }

/-- Placeholder used with `List.getD`; loop indices are always in range. -/
def defaultShape : Shape :=
  createShape ShapeType.circle ⟨0, 0⟩ 0 (shapeColors ShapeType.circle) 0

/-- Source `bodiesAreColliding`.  The source compares
`sqrt(dx*dx+dy*dy) < threshold`; the threshold is a nonnegative combination
of radii in every state the game builds, so this is encoded as the exact
squared comparison.  The debug-only `mergeCandidate` assignment is omitted. -/
def bodiesAreColliding (shapeA shapeB : Shape) (mergeCheck : Bool) : Bool :=
  let dx := shapeA.position.x - shapeB.position.x
  let dy := shapeA.position.y - shapeB.position.y
  let modifierA := shapeCollisionModifiers shapeA.type
  let modifierB := shapeCollisionModifiers shapeB.type
  let minDistance := shapeA.radius * modifierA + shapeB.radius * modifierB
  let threshold :=
    if mergeCheck then minDistance * MERGE_THRESHOLD_MULTIPLIER else minDistance
  decide (dx * dx + dy * dy < threshold * threshold)

/-- Left/right wall block of the source `handleContainerCollisions`. -/
def wallsStep (containerWidth restitution : ℚ) (shape : Shape) : Shape :=
  if shape.position.x - shape.radius < 0 then
    let shape : Shape := { shape with position := ⟨shape.radius, shape.position.y⟩ }
    let shape : Shape := { shape with velocity := ⟨|shape.velocity.x| * restitution, shape.velocity.y⟩ }
    { shape with angularVelocity := shape.angularVelocity + shape.velocity.y * (1/100) }
  else if shape.position.x + shape.radius > containerWidth then
    let shape : Shape := { shape with position := ⟨containerWidth - shape.radius, shape.position.y⟩ }
    let shape : Shape := { shape with velocity := ⟨-|shape.velocity.x| * restitution, shape.velocity.y⟩ }
    { shape with angularVelocity := shape.angularVelocity - shape.velocity.y * (1/100) }
  else shape

/-- Floor block of the source `handleContainerCollisions`. -/
def floorStep (containerHeight restitution : ℚ) (shape : Shape) : Shape :=
  if shape.position.y + shape.radius > containerHeight then
    let shape : Shape := { shape with position := ⟨shape.position.x, containerHeight - shape.radius⟩ }
    if shape.velocity.y > 10 then
      let shape : Shape := { shape with velocity := ⟨shape.velocity.x, -|shape.velocity.y| * restitution⟩ }
      { shape with angularVelocity := shape.angularVelocity + shape.velocity.x * (1/100) }
    else
      { shape with velocity := ⟨shape.velocity.x, 0⟩ }
  else shape

/-- Source `handleContainerCollisions` (walls then floor, as in the source). -/
def handleContainerCollisions (containerWidth containerHeight restitution : ℚ)
    (shape : Shape) : Shape :=
  floorStep containerHeight restitution (wallsStep containerWidth restitution shape)

/-- Dynamic/dynamic impulse branch of the source `resolveCollision`. -/
def resolveDynamicPair (nx ny restitution : ℚ) (shapeA shapeB : Shape) : Shape × Shape :=
  let relVelX := shapeB.velocity.x - shapeA.velocity.x
  let relVelY := shapeB.velocity.y - shapeA.velocity.y
  let relVelAlongNormal := relVelX * nx + relVelY * ny
  if relVelAlongNormal > 0 then (shapeA, shapeB)
  else
    let impulseScalar := -(1 + restitution) * relVelAlongNormal
    let shapeA : Shape := { shapeA with velocity :=
      ⟨shapeA.velocity.x - nx * impulseScalar * (1/2),
       shapeA.velocity.y - ny * impulseScalar * (1/2)⟩ }
    let shapeB : Shape := { shapeB with velocity :=
      ⟨shapeB.velocity.x + nx * impulseScalar * (1/2),
       shapeB.velocity.y + ny * impulseScalar * (1/2)⟩ }
    let impactPointX := nx * shapeA.radius
    let impactPointY := ny * shapeA.radius
    let shapeA : Shape := { shapeA with angularVelocity :=
      shapeA.angularVelocity + (impactPointX * relVelY - impactPointY * relVelX) * (15/10000) }
    let shapeB : Shape := { shapeB with angularVelocity :=
      shapeB.angularVelocity - (impactPointX * relVelY - impactPointY * relVelX) * (15/10000) }
    (shapeA, shapeB)

/-- Dynamic-vs-static reflection branch of the source `resolveCollision`
for `shapeA` (normal `(nx, ny)`); the spin uses the updated velocity, as in
the source. -/
def reflectShapeA (nx ny restitution : ℚ) (shapeA : Shape) : Shape :=
  let dotProduct := 2 * (shapeA.velocity.x * nx + shapeA.velocity.y * ny)
  let shapeA : Shape := { shapeA with velocity :=
    ⟨(shapeA.velocity.x - dotProduct * nx) * restitution,
     (shapeA.velocity.y - dotProduct * ny) * restitution⟩ }
  { shapeA with angularVelocity :=
    shapeA.angularVelocity + (nx * shapeA.velocity.y - ny * shapeA.velocity.x) * (3/1000) }

/-- Dynamic-vs-static reflection branch of the source `resolveCollision`
for `shapeB` (normal negated, as written in the source). -/
def reflectShapeB (nx ny restitution : ℚ) (shapeB : Shape) : Shape :=
  let dotProduct := 2 * (shapeB.velocity.x * (-nx) + shapeB.velocity.y * (-ny))
  let shapeB : Shape := { shapeB with velocity :=
    ⟨(shapeB.velocity.x - dotProduct * (-nx)) * restitution,
     (shapeB.velocity.y - dotProduct * (-ny)) * restitution⟩ }
  { shapeB with angularVelocity :=
    shapeB.angularVelocity + ((-nx) * shapeB.velocity.y - (-ny) * shapeB.velocity.x) * (3/1000) }

/-- Source `resolveCollision`.  Returns the updated pair; the
`distance === 0` guard returns both shapes untouched.  The three velocity
branches are the named helper functions above. -/
def resolveCollision (shapeA shapeB : Shape) (restitution : ℚ) : Shape × Shape :=
  let dx := shapeB.position.x - shapeA.position.x
  let dy := shapeB.position.y - shapeA.position.y
  let distance := ratSqrt (dx * dx + dy * dy)
  if distance = 0 then (shapeA, shapeB)
  else
    let nx := dx / distance
    let ny := dy / distance
    let mtd := (shapeA.radius + shapeB.radius - distance) / 2
    let shapeA : Shape :=
      if shapeA.isStatic then shapeA
      else { shapeA with position := ⟨shapeA.position.x - nx * mtd, shapeA.position.y - ny * mtd⟩ }
    let shapeB : Shape :=
      if shapeB.isStatic then shapeB
      else { shapeB with position := ⟨shapeB.position.x + nx * mtd, shapeB.position.y + ny * mtd⟩ }
    if !shapeA.isStatic && !shapeB.isStatic then
      resolveDynamicPair nx ny restitution shapeA shapeB
    else if !shapeA.isStatic then
      (reflectShapeA nx ny restitution shapeA, shapeB)
    else if !shapeB.isStatic then
      (shapeA, reflectShapeB nx ny restitution shapeB)
    else (shapeA, shapeB)

/-- Source `updateShapePhysics`.  Besides the shape it threads the two
instance fields the source mutates here (`pendingMergeChecks`,
`mergeCheckTimer`).  The speed-clamp comparison `speed > maxVelocity` is
encoded squared (both sides nonnegative); the rescaling itself uses
`ratSqrt`.  The body is split into one Lean definition per numbered step of
the source function, composed in source order, purely to keep the proofs
about each step manageable. -/
def gravityStep (gravity deltaTime : ℚ) (shape : Shape) : Shape :=
  if !shape.isStatic then
    { shape with velocity := ⟨shape.velocity.x, shape.velocity.y + gravity * deltaTime⟩ }
  else shape

/-- Ground-friction block of the source `updateShapePhysics`. -/
def groundFrictionStep (containerHeight friction : ℚ) (shape : Shape) : Shape :=
  if |shape.position.y + shape.radius - containerHeight| < 1 then
    let shape : Shape := { shape with velocity := ⟨shape.velocity.x * (1 - friction), shape.velocity.y⟩ }
    let shape : Shape :=
      if |shape.velocity.x| < 1 then { shape with velocity := ⟨0, shape.velocity.y⟩ }
      else shape
    { shape with angularVelocity := shape.angularVelocity * (1 - friction * 3) }
  else shape

/-- Angular damping block of the source `updateShapePhysics`. -/
def angularDampStep (deltaTime : ℚ) (shape : Shape) : Shape :=
  let shape : Shape :=
    { shape with angularVelocity := shape.angularVelocity * ratPow ANGULAR_DAMPING deltaTime }
  if |shape.velocity.x| < 20 ∧ |shape.velocity.y| < 20 then
    { shape with angularVelocity := shape.angularVelocity * (97/100) }
  else shape

/-- Position/rotation integration block of the source `updateShapePhysics`. -/
def integratePositionStep (deltaTime : ℚ) (shape : Shape) : Shape :=
  let shape : Shape := { shape with position :=
    ⟨shape.position.x + shape.velocity.x * deltaTime,
     shape.position.y + shape.velocity.y * deltaTime⟩ }
  { shape with rotation := shape.rotation + shape.angularVelocity * deltaTime }

/-- Speed clamp block of the source `updateShapePhysics`. -/
def clampVelocityStep (shape : Shape) : Shape :=
  if shape.velocity.x * shape.velocity.x + shape.velocity.y * shape.velocity.y >
      MAX_VELOCITY * MAX_VELOCITY then
    let speed := ratSqrt (shape.velocity.x * shape.velocity.x + shape.velocity.y * shape.velocity.y)
    { shape with velocity := ⟨shape.velocity.x / speed * MAX_VELOCITY,
                              shape.velocity.y / speed * MAX_VELOCITY⟩ }
  else shape

/-- Angular-velocity clamp block of the source `updateShapePhysics`. -/
def clampAngularStep (shape : Shape) : Shape :=
  if |shape.angularVelocity| > MAX_ANGULAR_VELOCITY then
    { shape with angularVelocity :=
      (if shape.angularVelocity < 0 then -1 else 1) * MAX_ANGULAR_VELOCITY }
  else shape

/-- Integration part of the source `updateShapePhysics` (everything before
the rest tracking), steps composed in source order. -/
def integrateShape (containerHeight gravity friction deltaTime : ℚ) (shape : Shape) : Shape :=
  clampAngularStep (clampVelocityStep (integratePositionStep deltaTime
    (angularDampStep deltaTime (groundFrictionStep containerHeight friction
      (gravityStep gravity deltaTime shape)))))

/-- Rest tracking tail of the source `updateShapePhysics` (see
`integrateShape`). -/
def trackRest (deltaTime : ℚ) (shape : Shape) (pendingMergeChecks : Bool)
    (mergeCheckTimer : ℚ) : Shape × Bool × ℚ :=
  if !shape.isStatic then
    if |shape.velocity.x| < 5 ∧ |shape.velocity.y| < 5 then
      let shape : Shape := { shape with restTimer := shape.restTimer + deltaTime }
      if shape.restTimer > 1/5 then
        let shape : Shape := { shape with isResting := true }
        if !pendingMergeChecks then (shape, true, mergeCheckDelay)
        else (shape, pendingMergeChecks, mergeCheckTimer)
      else (shape, pendingMergeChecks, mergeCheckTimer)
    else ({ shape with restTimer := 0, isResting := false }, pendingMergeChecks, mergeCheckTimer)
  else (shape, pendingMergeChecks, mergeCheckTimer)

/-- Source `updateShapePhysics` (integration followed by rest tracking). -/
def updateShapePhysics (containerHeight gravity friction deltaTime : ℚ)
    (shape : Shape) (pendingMergeChecks : Bool) (mergeCheckTimer : ℚ) :
    Shape × Bool × ℚ :=
  trackRest deltaTime (integrateShape containerHeight gravity friction deltaTime shape)
    pendingMergeChecks mergeCheckTimer

/-- Interaction kinds accepted by `handleInteraction`. -/
inductive InteractionType where
  | click
  | move
  | down
  | up
deriving DecidableEq

/-- Merge pop animation entry (source: `mergeAnimations` items). -/
structure MergeAnimation where
  shape : Shape
  timer : ℚ
deriving DecidableEq

/-- Ghost record of one committed fusion: the indices (in the pre-pass
`shapes` array) and values of the two sources, the created shape, and the
score passed to `onScoreUpdate` for this fusion. -/
structure FusionEvent where
  idxA : ℕ
  idxB : ℕ
  srcA : Shape
  srcB : Shape
  result : Shape
  newScore : ℚ
deriving DecidableEq

/-- Mutable simulation state of a `MergerGame` instance, minus the fixed
canvas/config data (kept separately in `GameState`).  The three trailing
lists are ghost observation logs (see the file header). -/
structure World where
  shapes : List Shape
  activeShape : Option Shape
  nextShape : Option Shape
  dropPosition : ℚ
  isGameOver : Bool
  score : ℚ
  mergeAnimations : List MergeAnimation
  pendingMergeChecks : Bool
  mergeCheckTimer : ℚ
  leftPressed : Bool
  rightPressed : Bool
  dropPressed : Bool
  mousePosition : Vec
  isDragging : Bool
  rng : List ℚ
  scoreEvents : List ℚ
  gameOverEvents : List ℚ
  fusionEvents : List FusionEvent
deriving DecidableEq

/-- Resolved game configuration (constructor merges user options over the
defaults; a user-provided `0` is kept here and only replaced at read time by
`orDefault`). -/
structure Config where
  containerWidth : ℚ
  containerHeight : ℚ
  gravity : ℚ
  friction : ℚ
  restitution : ℚ
  dropZoneHeight : ℚ
deriving DecidableEq

/-- Full state of a `MergerGame` instance. -/
structure GameState where
  canvasWidth : ℚ
  canvasHeight : ℚ
  config : Config
  world : World
deriving DecidableEq

/-- Consume one value of the `Math.random()` stream. -/
def takeRand (w : World) : ℚ × World :=
  (w.rng.headD 0, { w with rng := w.rng.tail })

/-- Source weight table inside `getRandomShapeType`. -/
def shapeWeights : List (ShapeType × ℚ) :=
  [(.circle, 60), (.square, 25), (.triangle, 10), (.trapezoid, 3),
   (.pentagon, 1), (.rhombus, 1/2), (.octagon, 3/10), (.star, 1/5)]

/-- Walk of the weight table (source: the `for` loop of
`getRandomShapeType`, with the fallback to Circle). -/
def pickWeighted : List (ShapeType × ℚ) → ℚ → ShapeType
  | [], _ => .circle
  | (t, wt) :: rest, r => if r < wt then t else pickWeighted rest (r - wt)

/-- Source `getRandomShapeType`, applied to one `Math.random()` draw. -/
def getRandomShapeType (rand : ℚ) : ShapeType :=
  pickWeighted shapeWeights (rand * (shapeWeights.map Prod.snd).sum)

/-- Source `generateNextShape`. -/
def generateNextShape (canvasWidth : ℚ) (w : World) : World :=
  let r := takeRand w
  let shapeType := getRandomShapeType r.1
  let ns := createShape shapeType ⟨canvasWidth - 100, 50⟩ (shapeSizes shapeType)
    (shapeColors shapeType) 0
  let ns := { ns with velocity := ⟨0, 0⟩, isStatic := true }
  { r.2 with nextShape := some ns }

/-- Source `generateNewActiveShape`: promote the queued shape (or create one
on first run), queue a fresh next shape, then end the game if the new active
shape already overlaps a settled shape (spawn-blocked trigger). -/
def generateNewActiveShape (canvasWidth : ℚ) (w : World) : World :=
  let p :=
    match w.nextShape with
    | some ns => ({ ns with position := ⟨w.dropPosition, ns.radius + 10⟩ }, w)
    | none =>
        let r := takeRand w
        let shapeType := getRandomShapeType r.1
        let a := createShape shapeType ⟨r.2.dropPosition, shapeSizes shapeType + 10⟩
          (shapeSizes shapeType) (shapeColors shapeType) 0
        ({ a with velocity := ⟨0, 0⟩ }, r.2)
  let a := { p.1 with isStatic := true }
  let w := { p.2 with activeShape := some a }
  let w := generateNextShape canvasWidth w
  if w.shapes.any (fun shape => bodiesAreColliding a shape false) then
    { w with isGameOver := true, gameOverEvents := w.gameOverEvents ++ [w.score] }
  else w

/-- Source `dropActiveShape`. -/
def dropActiveShape (w : World) : World :=
  match w.activeShape with
  | some a =>
      if a.isStatic then
        { w with activeShape := some { a with isStatic := false, velocity := ⟨0, 50⟩ } }
      else w
  | none => w

/-- Source `restart`. -/
def restart (canvasWidth : ℚ) (w : World) : World :=
  let w := { w with
    shapes := []
    isGameOver := false
    score := 0
    mergeAnimations := []
    dropPosition := canvasWidth / 2
    pendingMergeChecks := false
    activeShape := none
    nextShape := none }
  let w := generateNewActiveShape canvasWidth w
  generateNextShape canvasWidth w

/-- Source `handleInteraction` (public entry point).  Note the `move` clamp
uses the *canvas* width, not the configured container width. -/
def handleInteraction (x y : ℚ) (type : InteractionType) (s : GameState) : GameState :=
  let w := { s.world with mousePosition := (⟨x, y⟩ : Vec) }
  let w :=
    match type with
    | .move =>
        match w.activeShape with
        | some a =>
            if a.isStatic then
              let dropPosition := max a.radius (min (s.canvasWidth - a.radius) x)
              { w with dropPosition := dropPosition,
                       activeShape := some { a with position := ⟨dropPosition, a.position.y⟩ } }
            else w
        | none => w
    | .down =>
        let w := { w with isDragging := true }
        if !w.isGameOver then
          match w.activeShape with
          | some a => if a.isStatic then dropActiveShape w else w
          | none => w
        else w
    | .up | .click =>
        let w := { w with isDragging := false }
        if w.isGameOver then restart s.canvasWidth w
        else
          match w.activeShape with
          | some a => if a.isStatic then dropActiveShape w else w
          | none => w
  { s with world := w }

/-- Source `handleInput`. -/
def handleInput (canvasWidth deltaTime : ℚ) (w : World) : World :=
  match w.activeShape with
  | none => w
  | some a =>
      let moveSpeed := MOVE_SPEED * deltaTime
      let dropPosition :=
        if w.leftPressed then max a.radius (w.dropPosition - moveSpeed) else w.dropPosition
      let dropPosition :=
        if w.rightPressed then min (canvasWidth - a.radius) (dropPosition + moveSpeed)
        else dropPosition
      let a := if a.isStatic then { a with position := ⟨dropPosition, a.position.y⟩ } else a
      let a :=
        if w.dropPressed && a.isStatic then { a with isStatic := false, velocity := ⟨0, 50⟩ }
        else a
      { w with dropPosition := dropPosition, activeShape := some a }

/-- Source `updateActiveShape`: a released shape whose vertical speed fell
below 10 is settled into the simulation set and a merge check is scheduled. -/
def updateActiveShape (canvasWidth : ℚ) (w : World) : World :=
  match w.activeShape with
  | none => w
  | some a =>
      if (!a.isStatic) ∧ |a.velocity.y| < 10 then
        let a := { a with velocity := ⟨0, 0⟩ }
        let w := { w with
          activeShape := some a
          shapes := w.shapes ++ [a]
          pendingMergeChecks := true
          mergeCheckTimer := mergeCheckDelay }
        generateNewActiveShape canvasWidth w
      else if a.isStatic then
        { w with activeShape := some { a with position := ⟨w.dropPosition, a.position.y⟩ } }
      else w

/-- One body of the inner collision loop of `updatePhysics` (indices `i`,
`j` into the shapes array). -/
def resolveAt (restitution : ℚ) (i j : ℕ) (shapes : List Shape) : List Shape :=
  let si := shapes.getD i defaultShape
  let sj := shapes.getD j defaultShape
  if sj.isStatic then shapes
  else if bodiesAreColliding si sj false then
    let p := resolveCollision si sj restitution
    (shapes.set i p.1).set j p.2
  else shapes

/-- Inner loop `for (j = i+1; j < shapes.length; j++)` of `updatePhysics`,
with explicit fuel (the number of remaining iterations). -/
def innerCollisions (restitution : ℚ) (i : ℕ) : ℕ → ℕ → List Shape → List Shape
  | 0, _, shapes => shapes
  | fuel + 1, j, shapes =>
      innerCollisions restitution i fuel (j + 1) (resolveAt restitution i j shapes)

/-- One body of the outer loop of `updatePhysics` at index `i`: integrate,
resolve collisions against later shapes, then clamp to the container. -/
def outerStep (containerWidth containerHeight gravity friction restitution deltaTime : ℚ)
    (i : ℕ) (st : List Shape × Bool × ℚ) : List Shape × Bool × ℚ :=
  let si := st.1.getD i defaultShape
  if si.isStatic then st
  else
    let r := updateShapePhysics containerHeight gravity friction deltaTime si st.2.1 st.2.2
    let shapes := st.1.set i r.1
    let shapes := innerCollisions restitution i (shapes.length - (i + 1)) (i + 1) shapes
    let shapes := shapes.set i
      (handleContainerCollisions containerWidth containerHeight restitution
        (shapes.getD i defaultShape))
    (shapes, r.2)

/-- Outer loop `for (i = 0; i < shapes.length; i++)` of `updatePhysics`,
with explicit fuel. -/
def outerLoop (containerWidth containerHeight gravity friction restitution deltaTime : ℚ) :
    ℕ → ℕ → List Shape × Bool × ℚ → List Shape × Bool × ℚ
  | 0, _, st => st
  | fuel + 1, i, st =>
      outerLoop containerWidth containerHeight gravity friction restitution deltaTime fuel (i + 1)
        (outerStep containerWidth containerHeight gravity friction restitution deltaTime i st)

/-- Loop of `updatePhysics` checking the falling active shape against every
settled shape (source: the `for (const shape of this.shapes)` loop), with
explicit fuel and cursor `k`. -/
def activeCollisions (restitution : ℚ) : ℕ → ℕ → Shape → List Shape → Shape × List Shape
  | 0, _, a, shapes => (a, shapes)
  | fuel + 1, k, a, shapes =>
      let sk := shapes.getD k defaultShape
      if bodiesAreColliding a sk false then
        let p := resolveCollision a sk restitution
        activeCollisions restitution fuel (k + 1) p.1 (shapes.set k p.2)
      else activeCollisions restitution fuel (k + 1) a shapes

/-- Source `updatePhysics` (the physics constants are passed in already
resolved through `orDefault`, see `update`). -/
def updatePhysics (containerWidth containerHeight gravity friction restitution deltaTime : ℚ)
    (w : World) : World :=
  let w :=
    match w.activeShape with
    | some a =>
        if !a.isStatic then
          let r := updateShapePhysics containerHeight gravity friction deltaTime a
            w.pendingMergeChecks w.mergeCheckTimer
          let p := activeCollisions restitution w.shapes.length 0 r.1 w.shapes
          let a := handleContainerCollisions containerWidth containerHeight restitution p.1
          { w with activeShape := some a, shapes := p.2,
                   pendingMergeChecks := r.2.1, mergeCheckTimer := r.2.2 }
        else w
    | none => w
  let st := outerLoop containerWidth containerHeight gravity friction restitution deltaTime
    w.shapes.length 0 (w.shapes, w.pendingMergeChecks, w.mergeCheckTimer)
  { w with shapes := st.1, pendingMergeChecks := st.2.1, mergeCheckTimer := st.2.2 }

/-- Scan phase of `checkForMerges`: collect every pair (by index, `i < j`)
of same-type, leniently-colliding shapes whose type has a successor.  The
`shapesToRemove.has` checks of the source scan are vacuous there (the set is
only populated by the later processing loop). -/
def collectPairs (shapes : List Shape) : List (ℕ × ℕ) :=
  ((List.range shapes.length).map (fun i =>
    (List.range' (i + 1) (shapes.length - (i + 1))).filterMap (fun j =>
      let shapeA := shapes.getD i defaultShape
      let shapeB := shapes.getD j defaultShape
      if shapeA.type = shapeB.type ∧ bodiesAreColliding shapeA shapeB true = true ∧
          (MERGE_HIERARCHY shapeA.type).isSome = true
      then some (i, j) else none))).flatten

/-- Accumulated effect of the processing loop of `checkForMerges`. -/
structure MergeOutcome where
  removed : List ℕ
  newShapes : List Shape
  animations : List MergeAnimation
  scoreEvents : List ℚ
  fusions : List FusionEvent
  score : ℚ
deriving DecidableEq

/-- Processing loop of `checkForMerges`: walk the collected pairs in
discovery order, skipping any pair one of whose members was already claimed;
an accepted pair yields one next-tier shape at the midpoint, one animation,
one score increment with its `onScoreUpdate` call, and one ghost
`FusionEvent`.  The source reads `MERGE_HIERARCHY[type]!`; the `getD`
default is irrelevant because collected pairs always have a successor. -/
def processPairs (shapes : List Shape) : List (ℕ × ℕ) → List ℕ → ℚ → MergeOutcome
  | [], removed, score =>
      { removed := removed, newShapes := [], animations := [], scoreEvents := [],
        fusions := [], score := score }
  | (i, j) :: rest, removed, score =>
      if i ∈ removed ∨ j ∈ removed then processPairs shapes rest removed score
      else
        let shapeA := shapes.getD i defaultShape
        let shapeB := shapes.getD j defaultShape
        let nextType := (MERGE_HIERARCHY shapeA.type).getD shapeA.type
        let midPosition : Vec :=
          ⟨(shapeA.position.x + shapeB.position.x) / 2,
           (shapeA.position.y + shapeB.position.y) / 2⟩
        let newShape := createShape nextType midPosition (shapeSizes nextType)
          (shapeColors nextType) 0
        let newShape := { newShape with velocity := ⟨0, 0⟩, isStatic := false }
        let score := score + MERGE_POINTS nextType
        let o := processPairs shapes rest (i :: j :: removed) score
        { o with
          newShapes := newShape :: o.newShapes
          animations := ⟨newShape, 1/2⟩ :: o.animations
          scoreEvents := score :: o.scoreEvents
          fusions := ⟨i, j, shapeA, shapeB, newShape, score⟩ :: o.fusions }

/-- Filter `this.shapes = this.shapes.filter(s => !shapesToRemove.has(s))`,
by index. -/
def removeIdxs (shapes : List Shape) (removed : List ℕ) : List Shape :=
  ((List.range shapes.length).filter (fun i => decide (i ∉ removed))).map
    (fun i => shapes.getD i defaultShape)

/-- Convenience name for the full outcome of one merge pass on a world. -/
def mergeOutcome (w : World) : MergeOutcome :=
  processPairs w.shapes (collectPairs w.shapes) [] w.score

/-- Source `checkForMerges`. -/
def checkForMerges (w : World) : World :=
  let o := mergeOutcome w
  let w := { w with
    shapes := removeIdxs w.shapes o.removed ++ o.newShapes
    score := o.score
    scoreEvents := w.scoreEvents ++ o.scoreEvents
    mergeAnimations := w.mergeAnimations ++ o.animations
    fusionEvents := w.fusionEvents ++ o.fusions }
  if o.newShapes.length > 0 then
    { w with pendingMergeChecks := true, mergeCheckTimer := mergeCheckDelay }
  else w

/-- Source `clearMergeCandidateFlags`. -/
def clearMergeCandidateFlags (w : World) : World :=
  { w with shapes := w.shapes.map (fun shape => { shape with mergeCandidate := false }) }

/-- Source `updateMergeAnimations` (decrement and drop expired entries). -/
def updateMergeAnimations (deltaTime : ℚ) (w : World) : World :=
  let ticked := w.mergeAnimations.map (fun a => { a with timer := a.timer - deltaTime })
  { w with mergeAnimations := ticked.filter (fun a => decide (0 < a.timer)) }

/-- Source `checkGameOverCondition`: the overflow-line trigger.  The source
loop returns after the first offending shape, so at most one `onGameOver`
call is made here; the threshold is the static constant
`CANVAS.DROP_ZONE_HEIGHT`, not the configured drop-zone height. -/
def checkGameOverCondition (w : World) : World :=
  if w.shapes.any (fun shape => decide (shape.position.y - shape.radius ≤ DROP_ZONE_HEIGHT)) then
    { w with isGameOver := true, gameOverEvents := w.gameOverEvents ++ [w.score] }
  else w

/-- Merge-timer block of the source `update`: while a check is pending,
count the timer down and run `checkForMerges` when it expires; the source
then sets `pendingMergeChecks = false` *after* `checkForMerges` (overriding
the cascade rescheduling the latter may have done). -/
def mergeStage (deltaTime : ℚ) (w : World) : World :=
  if w.pendingMergeChecks then
    let w := { w with mergeCheckTimer := w.mergeCheckTimer - deltaTime }
    if w.mergeCheckTimer ≤ 0 then
      let w := checkForMerges w
      { w with pendingMergeChecks := false }
    else w
  else w

/-- Source `update` on the world, with canvas/config data passed in.  The
source resolves the `||`-defaults inside `updatePhysics`; they are resolved
at the call site here (`update`), which is equivalent since the config is
fixed during a tick. -/
def updateWorld (canvasWidth containerWidth containerHeight gravity friction restitution
    deltaTime : ℚ) (w : World) : World :=
  if w.isGameOver then w
  else
    checkGameOverCondition (updateMergeAnimations deltaTime (clearMergeCandidateFlags
      (mergeStage deltaTime
        (updatePhysics containerWidth containerHeight gravity friction restitution deltaTime
          (updateActiveShape canvasWidth (handleInput canvasWidth deltaTime w))))))

/-- Source `update` (public entry point). -/
def update (deltaTime : ℚ) (s : GameState) : GameState :=
  let w := updateWorld s.canvasWidth s.config.containerWidth s.config.containerHeight
    (orDefault s.config.gravity GRAVITY) (orDefault s.config.friction FRICTION)
    (orDefault s.config.restitution RESTITUTION) deltaTime s.world
  { s with world := w }

/-- The physics constants actually in force during a tick: each zero-valued
config entry resolves to its default through `orDefault`, exactly as the
source reads them (`this.config.gravity || MergerGame.PHYSICS.GRAVITY` and
friends). -/
def resolveConfig (c : Config) : Config :=
  { c with
    gravity := orDefault c.gravity GRAVITY
    friction := orDefault c.friction FRICTION
    restitution := orDefault c.restitution RESTITUTION }

/-- Placeholder used with `List.getD` on fusion-event lists. -/
def defaultFusionEvent : FusionEvent :=
  { idxA := 0, idxB := 0, srcA := defaultShape, srcB := defaultShape,
    result := defaultShape, newScore := 0 }

/-- Two fusion events claim disjoint shapes (by index in the pass). -/
def FusionDisjoint (e1 e2 : FusionEvent) : Prop :=
  e1.idxA ≠ e2.idxA ∧ e1.idxA ≠ e2.idxB ∧ e1.idxB ≠ e2.idxA ∧ e1.idxB ≠ e2.idxB

/-- Well-formedness of a committed fusion: equal source types, result type
the successor of the source type; in particular the source type is not the
terminal Star tier. -/
def GoodFusion (e : FusionEvent) : Prop :=
  e.srcA.type = e.srcB.type ∧ MERGE_HIERARCHY e.srcA.type = some e.result.type ∧
    e.srcA.type ≠ ShapeType.star

/-- One public operation of the engine between restarts. -/
inductive Op where
  | upd (deltaTime : ℚ)
  | interact (x y : ℚ) (type : InteractionType)
deriving DecidableEq

/-- Execute one public operation. -/
def execOp (o : Op) (s : GameState) : GameState :=
  match o with
  | .upd deltaTime => update deltaTime s
  | .interact x y type => handleInteraction x y type s

/-- Execute a list of public operations in order. -/
def execTrace (ops : List Op) (s : GameState) : GameState :=
  ops.foldl (fun s o => execOp o s) s

/-- Does this operation hit the internal `restart()` path of
`handleInteraction` (an `up`/`click` while the game is over)? -/
def opRestarts (o : Op) (s : GameState) : Bool :=
  match o with
  | .upd _ => false
  | .interact _ _ type =>
      decide ((type = InteractionType.up ∨ type = InteractionType.click) ∧
        s.world.isGameOver = true)

/-- A trace is restart-free when no operation in it hits the internal
`restart()` path at the state where it runs. -/
def restartFree : List Op → GameState → Bool
  | [], _ => true
  | o :: rest, s => !opRestarts o s && restartFree rest (execOp o s)

/-- Boundary containment of one shape (the spec's property, relative to the
configured container). -/
def inBounds (containerWidth containerHeight : ℚ) (shape : Shape) : Prop :=
  0 ≤ shape.position.x - shape.radius ∧ shape.position.x + shape.radius ≤ containerWidth ∧
    shape.position.y + shape.radius ≤ containerHeight

/-- Containment is decidable (used to evaluate the counterexample). -/
instance inBoundsDecidable (containerWidth containerHeight : ℚ) (shape : Shape) :
    Decidable (inBounds containerWidth containerHeight shape) :=
  inferInstanceAs (Decidable (0 ≤ shape.position.x - shape.radius ∧
    shape.position.x + shape.radius ≤ containerWidth ∧
    shape.position.y + shape.radius ≤ containerHeight))

/-- Concrete dynamic circle, for the closed test states below. -/
def mkCircle (x y : ℚ) (stat : Bool) : Shape :=
  { createShape ShapeType.circle ⟨x, y⟩ 25 (shapeColors ShapeType.circle) 0 with isStatic := stat }

/-- Empty baseline world for the closed test states below. -/
def baseWorld : World :=
  { shapes := []
    activeShape := none
    nextShape := none
    dropPosition := 400
    isGameOver := false
    score := 0
    mergeAnimations := []
    pendingMergeChecks := false
    mergeCheckTimer := 0
    leftPressed := false
    rightPressed := false
    dropPressed := false
    mousePosition := ⟨0, 0⟩
    isDragging := false
    rng := []
    scoreEvents := []
    gameOverEvents := []
    fusionEvents := [] }

/-- Baseline configuration: an 800x600 canvas with the default constants
(as produced by the constructor with no config overrides). -/
def baseConfig : Config :=
  { containerWidth := 800, containerHeight := 600, gravity := 980, friction := 1/20,
    restitution := 1/2, dropZoneHeight := 100 }

/-- Test state for C2: the released active circle (falling slowly at
(400,160)) settles this tick; the freshly promoted active shape spawns at
(400,35) overlapping the settled circle at (400,70), so the spawn-blocked
trigger fires, and that circle's top edge is also above the drop-zone line,
so the overflow trigger fires in the same `update` call. -/
def c2State : GameState :=
  { canvasWidth := 800, canvasHeight := 600, config := baseConfig,
    world := { baseWorld with
      shapes := [mkCircle 400 70 false]
      activeShape := some { mkCircle 400 160 false with velocity := ⟨0, 5⟩ }
      nextShape := some (mkCircle 700 50 true)
      rng := [0] } }

/-- Test state for the C2 witness: a game-over state with a pending score. -/
def gameOverState : GameState :=
  { canvasWidth := 800, canvasHeight := 600, config := baseConfig,
    world := { baseWorld with isGameOver := true, score := 7, gameOverEvents := [7] } }

/-- Test state for C5: game over with a positive score; an `up` interaction
restarts and wipes the score. -/
def c5State : GameState :=
  { canvasWidth := 800, canvasHeight := 600, config := baseConfig,
    world := { baseWorld with score := 10, isGameOver := true, rng := [0, 0, 0] } }

/-- Test state for C6: the canvas is 800 wide but the configured container
is 500 wide; a `move` to x = 700 exposes which width the clamp uses. -/
def c6State : GameState :=
  { canvasWidth := 800, canvasHeight := 600,
    config := { baseConfig with containerWidth := 500 },
    world := { baseWorld with activeShape := some (mkCircle 400 35 true) } }

/-- Test state for C8: two resting circles stacked against the left wall;
the pending merge check fires this tick and fuses them into a Square of
radius 35 centred at x = 25, which therefore sticks out of the container. -/
def c8State : GameState :=
  { canvasWidth := 800, canvasHeight := 600, config := baseConfig,
    world := { baseWorld with
      shapes := [mkCircle 25 575 false, mkCircle 25 525 false]
      activeShape := some (mkCircle 400 35 true)
      nextShape := some (mkCircle 700 50 true)
      pendingMergeChecks := true
      mergeCheckTimer := 1/2 } }

/-- Test state for the C8 witness: a single settled circle mid-container,
no active shape, no pending merge check. -/
def c8SettleState : GameState :=
  { canvasWidth := 800, canvasHeight := 600, config := baseConfig,
    world := { baseWorld with shapes := [mkCircle 400 300 false] } }

end Merger

namespace Merger

theorem processPairs_newShapes (shapes : List Shape) (pairs : List (ℕ × ℕ))
    (removed : List ℕ) (score : ℚ) :
    (processPairs shapes pairs removed score).newShapes
      = (processPairs shapes pairs removed score).fusions.map (fun e => e.result) := by
  induction pairs generalizing removed score with
  | nil => simp [processPairs]
  | cons p rest ih =>
      obtain ⟨i, j⟩ := p
      by_cases hmem : i ∈ removed ∨ j ∈ removed
      · simp [processPairs, hmem, ih]
      · simp [processPairs, hmem, ih]

theorem processPairs_scoreEvents (shapes : List Shape) (pairs : List (ℕ × ℕ))
    (removed : List ℕ) (score : ℚ) :
    (processPairs shapes pairs removed score).scoreEvents
      = (processPairs shapes pairs removed score).fusions.map (fun e => e.newScore) := by
  induction pairs generalizing removed score with
  | nil => simp [processPairs]
  | cons p rest ih =>
      obtain ⟨i, j⟩ := p
      by_cases hmem : i ∈ removed ∨ j ∈ removed
      · simp [processPairs, hmem, ih]
      · simp [processPairs, hmem, ih]

theorem processPairs_score (shapes : List Shape) (pairs : List (ℕ × ℕ))
    (removed : List ℕ) (score : ℚ) :
    (processPairs shapes pairs removed score).score
      = score + ((processPairs shapes pairs removed score).fusions.map
          (fun e => MERGE_POINTS e.result.type)).sum := by
  induction pairs generalizing removed score with
  | nil => simp [processPairs]
  | cons p rest ih =>
      obtain ⟨i, j⟩ := p
      by_cases hmem : i ∈ removed ∨ j ∈ removed
      · simp [processPairs, hmem, ih]
      · simp [processPairs, hmem, ih, createShape]
        ring

theorem processPairs_removed_iff (shapes : List Shape) (pairs : List (ℕ × ℕ))
    (removed : List ℕ) (score : ℚ) (n : ℕ) :
    n ∈ (processPairs shapes pairs removed score).removed
      ↔ n ∈ removed ∨
        ∃ e ∈ (processPairs shapes pairs removed score).fusions, n = e.idxA ∨ n = e.idxB := by
  induction pairs generalizing removed score with
  | nil => simp [processPairs]
  | cons p rest ih =>
      obtain ⟨i, j⟩ := p
      by_cases hmem : i ∈ removed ∨ j ∈ removed
      · simp [processPairs, hmem, ih]
      · simp [processPairs, hmem, ih, List.mem_cons]
        aesop

theorem processPairs_fusions_avoid (shapes : List Shape) (pairs : List (ℕ × ℕ))
    (removed : List ℕ) (score : ℚ) :
    ∀ e ∈ (processPairs shapes pairs removed score).fusions,
      e.idxA ∉ removed ∧ e.idxB ∉ removed := by
  induction pairs generalizing removed score with
  | nil => simp [processPairs]
  | cons p rest ih =>
      obtain ⟨i, j⟩ := p
      by_cases hmem : i ∈ removed ∨ j ∈ removed
      · simpa [processPairs, hmem] using ih removed score
      · intro e he
        rw [not_or] at hmem
        simp only [processPairs, if_neg (not_or.mpr hmem)] at he
        simp only [List.mem_cons] at he
        rcases he with rfl | he
        · exact ⟨hmem.1, hmem.2⟩
        · have h2 := ih (i :: j :: removed) _ e he
          simp only [List.mem_cons, not_or] at h2
          exact ⟨h2.1.2.2, h2.2.2.2⟩

theorem processPairs_pairwise (shapes : List Shape) (pairs : List (ℕ × ℕ))
    (removed : List ℕ) (score : ℚ) :
    ((processPairs shapes pairs removed score).fusions).Pairwise FusionDisjoint := by
  induction pairs generalizing removed score with
  | nil => simp [processPairs]
  | cons p rest ih =>
      obtain ⟨i, j⟩ := p
      by_cases hmem : i ∈ removed ∨ j ∈ removed
      · simpa [processPairs, hmem] using ih removed score
      · simp only [processPairs, if_neg hmem]
        refine List.Pairwise.cons ?_ (ih _ _)
        intro e he
        have h2 := processPairs_fusions_avoid shapes rest (i :: j :: removed) _ e he
        simp only [List.mem_cons, not_or] at h2
        exact ⟨fun hh => h2.1.1 hh.symm, fun hh => h2.2.1 hh.symm,
          fun hh => h2.1.2.1 hh.symm, fun hh => h2.2.2.1 hh.symm⟩

theorem processPairs_fusions_spec (shapes : List Shape) (pairs : List (ℕ × ℕ))
    (removed : List ℕ) (score : ℚ) :
    ∀ e ∈ (processPairs shapes pairs removed score).fusions,
      (e.idxA, e.idxB) ∈ pairs ∧
      e.srcA = shapes.getD e.idxA defaultShape ∧
      e.srcB = shapes.getD e.idxB defaultShape ∧
      e.result.type = (MERGE_HIERARCHY e.srcA.type).getD e.srcA.type ∧
      e.result.position.x = (e.srcA.position.x + e.srcB.position.x) / 2 ∧
      e.result.position.y = (e.srcA.position.y + e.srcB.position.y) / 2 ∧
      e.result.velocity = ⟨0, 0⟩ ∧
      e.result.isStatic = false := by
  induction pairs generalizing removed score with
  | nil => simp [processPairs]
  | cons p rest ih =>
      obtain ⟨i, j⟩ := p
      by_cases hmem : i ∈ removed ∨ j ∈ removed
      · intro e he
        simp only [processPairs, if_pos hmem] at he
        have := ih removed score e he
        exact ⟨List.mem_cons_of_mem _ this.1, this.2⟩
      · intro e he
        simp only [processPairs, if_neg hmem, List.mem_cons] at he
        rcases he with rfl | he
        · refine ⟨List.mem_cons_self _ _, rfl, rfl, ?_, ?_, ?_, rfl, rfl⟩ <;>
            simp [createShape]
        · have := ih (i :: j :: removed) _ e he
          exact ⟨List.mem_cons_of_mem _ this.1, this.2⟩

theorem processPairs_newScore (shapes : List Shape) (pairs : List (ℕ × ℕ))
    (removed : List ℕ) (score : ℚ) :
    ∀ k, k < (processPairs shapes pairs removed score).fusions.length →
      ((processPairs shapes pairs removed score).fusions.getD k defaultFusionEvent).newScore
        = score + (((processPairs shapes pairs removed score).fusions.take (k + 1)).map
            (fun e => MERGE_POINTS e.result.type)).sum := by
  induction pairs generalizing removed score with
  | nil => simp [processPairs]
  | cons p rest ih =>
      obtain ⟨i, j⟩ := p
      by_cases hmem : i ∈ removed ∨ j ∈ removed
      · simpa [processPairs, hmem] using ih removed score
      · intro k hk
        match k with
        | 0 => simp [processPairs, hmem, createShape]
        | Nat.succ k =>
            simp only [processPairs, if_neg hmem, List.length_cons] at hk
            have hk2 : k < (processPairs shapes rest (i :: j :: removed)
                (score + MERGE_POINTS ((MERGE_HIERARCHY (shapes.getD i defaultShape).type).getD
                  (shapes.getD i defaultShape).type))).fusions.length := by omega
            have := ih (i :: j :: removed) _ k hk2
            simp only [processPairs, if_neg hmem, List.getD_cons_succ, List.take_succ_cons,
              List.map_cons, List.sum_cons]
            rw [this]
            simp [createShape]
            ring

end Merger

namespace Merger

theorem collectPairs_spec (shapes : List Shape) :
    ∀ p ∈ collectPairs shapes, p.1 < p.2 ∧ p.2 < shapes.length ∧
      (shapes.getD p.1 defaultShape).type = (shapes.getD p.2 defaultShape).type ∧
      bodiesAreColliding (shapes.getD p.1 defaultShape) (shapes.getD p.2 defaultShape) true
        = true ∧
      (MERGE_HIERARCHY (shapes.getD p.1 defaultShape).type).isSome = true := by
  intro p hp
  simp only [collectPairs, List.mem_flatten, List.mem_map] at hp
  obtain ⟨l, ⟨i, hi, rfl⟩, hpl⟩ := hp
  simp only [List.mem_filterMap] at hpl
  obtain ⟨j, hj, hpj⟩ := hpl
  simp only [List.mem_range] at hi
  rw [List.mem_range'_1] at hj
  split_ifs at hpj with hcond
  · simp only [Option.some.injEq] at hpj
    subst hpj
    exact ⟨by omega, by omega, hcond.1, hcond.2.1, hcond.2.2⟩

theorem mergeOutcome_good (w : World) : ∀ e ∈ (mergeOutcome w).fusions, GoodFusion e := by
  intro e he
  have hs := processPairs_fusions_spec w.shapes (collectPairs w.shapes) [] w.score e he
  obtain ⟨hmemp, hA, hB, hres, -, -, -, -⟩ := hs
  have hc := collectPairs_spec w.shapes (e.idxA, e.idxB) hmemp
  obtain ⟨-, -, htype, -, hsome⟩ := hc
  simp only at htype hsome
  have hsome2 : (MERGE_HIERARCHY e.srcA.type).isSome = true := by rw [hA]; exact hsome
  obtain ⟨t2, ht2⟩ := Option.isSome_iff_exists.mp hsome2
  have hrt : e.result.type = t2 := by rw [hres, ht2]; rfl
  refine ⟨?_, ?_, ?_⟩
  · rw [hA, hB]; exact htype
  · rw [ht2, hrt]
  · intro hstar
    rw [hstar] at ht2
    simp [MERGE_HIERARCHY] at ht2

theorem checkForMerges_fusionEvents (w : World) :
    (checkForMerges w).fusionEvents = w.fusionEvents ++ (mergeOutcome w).fusions := by
  by_cases h : (mergeOutcome w).newShapes.length > 0 <;> simp [checkForMerges, h]

theorem checkForMerges_shapes (w : World) :
    (checkForMerges w).shapes
      = removeIdxs w.shapes (mergeOutcome w).removed ++ (mergeOutcome w).newShapes := by
  by_cases h : (mergeOutcome w).newShapes.length > 0 <;> simp [checkForMerges, h]

theorem checkForMerges_scoreEvents (w : World) :
    (checkForMerges w).scoreEvents = w.scoreEvents ++ (mergeOutcome w).scoreEvents := by
  by_cases h : (mergeOutcome w).newShapes.length > 0 <;> simp [checkForMerges, h]

theorem checkForMerges_score (w : World) :
    (checkForMerges w).score = (mergeOutcome w).score := by
  by_cases h : (mergeOutcome w).newShapes.length > 0 <;> simp [checkForMerges, h]

theorem checkForMerges_gameOverEvents (w : World) :
    (checkForMerges w).gameOverEvents = w.gameOverEvents := by
  by_cases h : (mergeOutcome w).newShapes.length > 0 <;> simp [checkForMerges, h]

theorem checkForMerges_isGameOver (w : World) :
    (checkForMerges w).isGameOver = w.isGameOver := by
  by_cases h : (mergeOutcome w).newShapes.length > 0 <;> simp [checkForMerges, h]

/-- C1: for every accepted pair of one `checkForMerges` pass, both source
shapes (by index) land in the removed set and the post-pass shape set is
exactly the old set minus removed indices plus the new shapes — one per
accepted pair, of the successor type of the shared source type, centred at
the arithmetic midpoint of the two source centres, with zero velocity and
non-static; the score grows by the successor tier's `MERGE_POINTS`, and
`onScoreUpdate` is invoked once per pair with the running new score. -/
theorem checkForMerges_spec (w : World) :
    ((checkForMerges w).fusionEvents = w.fusionEvents ++ (mergeOutcome w).fusions) ∧
    ((checkForMerges w).shapes
      = removeIdxs w.shapes (mergeOutcome w).removed
          ++ (mergeOutcome w).fusions.map (fun e => e.result)) ∧
    ((checkForMerges w).scoreEvents
      = w.scoreEvents ++ (mergeOutcome w).fusions.map (fun e => e.newScore)) ∧
    ((checkForMerges w).score
      = w.score + ((mergeOutcome w).fusions.map (fun e => MERGE_POINTS e.result.type)).sum) ∧
    (∀ e ∈ (mergeOutcome w).fusions,
      e.idxA ∈ (mergeOutcome w).removed ∧ e.idxB ∈ (mergeOutcome w).removed ∧
      e.srcA = w.shapes.getD e.idxA defaultShape ∧
      e.srcB = w.shapes.getD e.idxB defaultShape ∧
      e.srcB.type = e.srcA.type ∧
      MERGE_HIERARCHY e.srcA.type = some e.result.type ∧
      e.result.position.x = (e.srcA.position.x + e.srcB.position.x) / 2 ∧
      e.result.position.y = (e.srcA.position.y + e.srcB.position.y) / 2 ∧
      e.result.velocity = ⟨0, 0⟩ ∧ e.result.isStatic = false) ∧
    (∀ k, k < (mergeOutcome w).fusions.length →
      ((mergeOutcome w).fusions.getD k defaultFusionEvent).newScore
        = w.score + (((mergeOutcome w).fusions.take (k + 1)).map
            (fun e => MERGE_POINTS e.result.type)).sum) := by
  refine ⟨checkForMerges_fusionEvents w, ?_, ?_, ?_, ?_, ?_⟩
  · rw [checkForMerges_shapes w, mergeOutcome,
      processPairs_newShapes w.shapes (collectPairs w.shapes) [] w.score]
  · rw [checkForMerges_scoreEvents w, mergeOutcome,
      processPairs_scoreEvents w.shapes (collectPairs w.shapes) [] w.score]
  · rw [checkForMerges_score w, mergeOutcome,
      processPairs_score w.shapes (collectPairs w.shapes) [] w.score]
  · intro e he
    have hs := processPairs_fusions_spec w.shapes (collectPairs w.shapes) [] w.score e he
    obtain ⟨hmemp, hA, hB, hres, hmx, hmy, hvel, hstat⟩ := hs
    have hg := mergeOutcome_good w e he
    obtain ⟨hty, hsucc, -⟩ := hg
    refine ⟨?_, ?_, hA, hB, hty.symm, hsucc, hmx, hmy, hvel, hstat⟩
    · rw [mergeOutcome, processPairs_removed_iff]
      exact Or.inr ⟨e, he, Or.inl rfl⟩
    · rw [mergeOutcome, processPairs_removed_iff]
      exact Or.inr ⟨e, he, Or.inr rfl⟩
  · exact processPairs_newScore w.shapes (collectPairs w.shapes) [] w.score

/-- C3: within one `checkForMerges` pass the accepted fusion pairs are
pairwise disjoint — no shape index is claimed by two accepted pairs — and
every accepted pair is one of the collected candidate pairs. -/
theorem checkForMerges_no_double_claim (w : World) :
    ((checkForMerges w).fusionEvents = w.fusionEvents ++ (mergeOutcome w).fusions) ∧
    ((mergeOutcome w).fusions).Pairwise FusionDisjoint ∧
    (∀ e ∈ (mergeOutcome w).fusions, (e.idxA, e.idxB) ∈ collectPairs w.shapes) := by
  refine ⟨checkForMerges_fusionEvents w, processPairs_pairwise _ _ _ _, ?_⟩
  intro e he
  exact (processPairs_fusions_spec w.shapes (collectPairs w.shapes) [] w.score e he).1

end Merger

namespace Merger

theorem generateNextShape_fusionEvents (cw : ℚ) (w : World) :
    (generateNextShape cw w).fusionEvents = w.fusionEvents := by
  simp [generateNextShape, takeRand]

theorem generateNextShape_score (cw : ℚ) (w : World) :
    (generateNextShape cw w).score = w.score := by
  simp [generateNextShape, takeRand]

theorem generateNextShape_scoreEvents (cw : ℚ) (w : World) :
    (generateNextShape cw w).scoreEvents = w.scoreEvents := by
  simp [generateNextShape, takeRand]

theorem generateNextShape_gameOverEvents (cw : ℚ) (w : World) :
    (generateNextShape cw w).gameOverEvents = w.gameOverEvents := by
  simp [generateNextShape, takeRand]

theorem generateNextShape_isGameOver (cw : ℚ) (w : World) :
    (generateNextShape cw w).isGameOver = w.isGameOver := by
  simp [generateNextShape, takeRand]

theorem generateNextShape_shapes (cw : ℚ) (w : World) :
    (generateNextShape cw w).shapes = w.shapes := by
  simp [generateNextShape, takeRand]

theorem generateNewActiveShape_fusionEvents (cw : ℚ) (w : World) :
    (generateNewActiveShape cw w).fusionEvents = w.fusionEvents := by
  cases h : w.nextShape <;>
    simp [generateNewActiveShape, h, generateNextShape, takeRand, apply_ite]

theorem generateNewActiveShape_score (cw : ℚ) (w : World) :
    (generateNewActiveShape cw w).score = w.score := by
  cases h : w.nextShape <;>
    simp [generateNewActiveShape, h, generateNextShape, takeRand, apply_ite]

theorem generateNewActiveShape_scoreEvents (cw : ℚ) (w : World) :
    (generateNewActiveShape cw w).scoreEvents = w.scoreEvents := by
  cases h : w.nextShape <;>
    simp [generateNewActiveShape, h, generateNextShape, takeRand, apply_ite]

theorem generateNewActiveShape_shapes (cw : ℚ) (w : World) :
    (generateNewActiveShape cw w).shapes = w.shapes := by
  cases h : w.nextShape <;>
    simp [generateNewActiveShape, h, generateNextShape, takeRand, apply_ite]

theorem generateNewActiveShape_gameOverEvents_length (cw : ℚ) (w : World) :
    (generateNewActiveShape cw w).gameOverEvents.length ≤ w.gameOverEvents.length + 1 := by
  cases h : w.nextShape <;>
    · simp only [generateNewActiveShape, h]
      split_ifs <;> simp [generateNextShape, takeRand]

theorem generateNewActiveShape_gameOverEvents_empty (cw : ℚ) (w : World)
    (hsh : w.shapes = []) :
    (generateNewActiveShape cw w).gameOverEvents = w.gameOverEvents := by
  cases h : w.nextShape <;>
    simp [generateNewActiveShape, h, generateNextShape, takeRand, hsh]

theorem dropActiveShape_fusionEvents (w : World) :
    (dropActiveShape w).fusionEvents = w.fusionEvents := by
  cases h : w.activeShape <;> simp [dropActiveShape, h, apply_ite]

theorem dropActiveShape_score (w : World) :
    (dropActiveShape w).score = w.score := by
  cases h : w.activeShape <;> simp [dropActiveShape, h, apply_ite]

theorem dropActiveShape_gameOverEvents (w : World) :
    (dropActiveShape w).gameOverEvents = w.gameOverEvents := by
  cases h : w.activeShape <;> simp [dropActiveShape, h, apply_ite]

theorem handleInput_fusionEvents (cw dt : ℚ) (w : World) :
    (handleInput cw dt w).fusionEvents = w.fusionEvents := by
  cases h : w.activeShape <;> simp [handleInput, h]

theorem handleInput_score (cw dt : ℚ) (w : World) :
    (handleInput cw dt w).score = w.score := by
  cases h : w.activeShape <;> simp [handleInput, h]

theorem handleInput_scoreEvents (cw dt : ℚ) (w : World) :
    (handleInput cw dt w).scoreEvents = w.scoreEvents := by
  cases h : w.activeShape <;> simp [handleInput, h]

theorem handleInput_gameOverEvents (cw dt : ℚ) (w : World) :
    (handleInput cw dt w).gameOverEvents = w.gameOverEvents := by
  cases h : w.activeShape <;> simp [handleInput, h]

theorem handleInput_isGameOver (cw dt : ℚ) (w : World) :
    (handleInput cw dt w).isGameOver = w.isGameOver := by
  cases h : w.activeShape <;> simp [handleInput, h]

theorem updateActiveShape_fusionEvents (cw : ℚ) (w : World) :
    (updateActiveShape cw w).fusionEvents = w.fusionEvents := by
  cases h : w.activeShape with
  | none => simp [updateActiveShape, h]
  | some a =>
      simp only [updateActiveShape, h]
      split_ifs <;> simp [generateNewActiveShape_fusionEvents]

theorem updateActiveShape_score (cw : ℚ) (w : World) :
    (updateActiveShape cw w).score = w.score := by
  cases h : w.activeShape with
  | none => simp [updateActiveShape, h]
  | some a =>
      simp only [updateActiveShape, h]
      split_ifs <;> simp [generateNewActiveShape_score]

theorem updateActiveShape_scoreEvents (cw : ℚ) (w : World) :
    (updateActiveShape cw w).scoreEvents = w.scoreEvents := by
  cases h : w.activeShape with
  | none => simp [updateActiveShape, h]
  | some a =>
      simp only [updateActiveShape, h]
      split_ifs <;> simp [generateNewActiveShape_scoreEvents]

theorem updateActiveShape_gameOverEvents_length (cw : ℚ) (w : World) :
    (updateActiveShape cw w).gameOverEvents.length ≤ w.gameOverEvents.length + 1 := by
  cases h : w.activeShape with
  | none => simp [updateActiveShape, h]
  | some a =>
      simp only [updateActiveShape, h]
      split_ifs
      · exact le_trans (generateNewActiveShape_gameOverEvents_length cw _) (by simp)
      · simp
      · simp

theorem updatePhysics_fusionEvents (CW CH g f r dt : ℚ) (w : World) :
    (updatePhysics CW CH g f r dt w).fusionEvents = w.fusionEvents := by
  cases h : w.activeShape with
  | none => simp [updatePhysics, h]
  | some a =>
      simp only [updatePhysics, h]
      split_ifs <;> simp

theorem updatePhysics_score (CW CH g f r dt : ℚ) (w : World) :
    (updatePhysics CW CH g f r dt w).score = w.score := by
  cases h : w.activeShape with
  | none => simp [updatePhysics, h]
  | some a =>
      simp only [updatePhysics, h]
      split_ifs <;> simp

theorem updatePhysics_scoreEvents (CW CH g f r dt : ℚ) (w : World) :
    (updatePhysics CW CH g f r dt w).scoreEvents = w.scoreEvents := by
  cases h : w.activeShape with
  | none => simp [updatePhysics, h]
  | some a =>
      simp only [updatePhysics, h]
      split_ifs <;> simp

theorem updatePhysics_gameOverEvents (CW CH g f r dt : ℚ) (w : World) :
    (updatePhysics CW CH g f r dt w).gameOverEvents = w.gameOverEvents := by
  cases h : w.activeShape with
  | none => simp [updatePhysics, h]
  | some a =>
      simp only [updatePhysics, h]
      split_ifs <;> simp

theorem updatePhysics_isGameOver (CW CH g f r dt : ℚ) (w : World) :
    (updatePhysics CW CH g f r dt w).isGameOver = w.isGameOver := by
  cases h : w.activeShape with
  | none => simp [updatePhysics, h]
  | some a =>
      simp only [updatePhysics, h]
      split_ifs <;> simp

theorem clearMergeCandidateFlags_fusionEvents (w : World) :
    (clearMergeCandidateFlags w).fusionEvents = w.fusionEvents := by
  simp [clearMergeCandidateFlags]

theorem clearMergeCandidateFlags_score (w : World) :
    (clearMergeCandidateFlags w).score = w.score := by
  simp [clearMergeCandidateFlags]

theorem clearMergeCandidateFlags_scoreEvents (w : World) :
    (clearMergeCandidateFlags w).scoreEvents = w.scoreEvents := by
  simp [clearMergeCandidateFlags]

theorem clearMergeCandidateFlags_gameOverEvents (w : World) :
    (clearMergeCandidateFlags w).gameOverEvents = w.gameOverEvents := by
  simp [clearMergeCandidateFlags]

theorem updateMergeAnimations_fusionEvents (dt : ℚ) (w : World) :
    (updateMergeAnimations dt w).fusionEvents = w.fusionEvents := by
  simp [updateMergeAnimations]

theorem updateMergeAnimations_score (dt : ℚ) (w : World) :
    (updateMergeAnimations dt w).score = w.score := by
  simp [updateMergeAnimations]

theorem updateMergeAnimations_scoreEvents (dt : ℚ) (w : World) :
    (updateMergeAnimations dt w).scoreEvents = w.scoreEvents := by
  simp [updateMergeAnimations]

theorem updateMergeAnimations_gameOverEvents (dt : ℚ) (w : World) :
    (updateMergeAnimations dt w).gameOverEvents = w.gameOverEvents := by
  simp [updateMergeAnimations]

theorem checkGameOverCondition_fusionEvents (w : World) :
    (checkGameOverCondition w).fusionEvents = w.fusionEvents := by
  unfold checkGameOverCondition
  split_ifs <;> simp

theorem checkGameOverCondition_score (w : World) :
    (checkGameOverCondition w).score = w.score := by
  unfold checkGameOverCondition
  split_ifs <;> simp

theorem checkGameOverCondition_scoreEvents (w : World) :
    (checkGameOverCondition w).scoreEvents = w.scoreEvents := by
  unfold checkGameOverCondition
  split_ifs <;> simp

theorem checkGameOverCondition_gameOverEvents_length (w : World) :
    (checkGameOverCondition w).gameOverEvents.length ≤ w.gameOverEvents.length + 1 := by
  unfold checkGameOverCondition
  split_ifs <;> simp

theorem mergeStage_fusionEvents (dt : ℚ) (w : World) :
    ∀ e ∈ (mergeStage dt w).fusionEvents, e ∈ w.fusionEvents ∨ GoodFusion e := by
  intro e he
  by_cases hp : w.pendingMergeChecks
  · by_cases ht : w.mergeCheckTimer - dt ≤ 0
    · have heq : (mergeStage dt w).fusionEvents
          = w.fusionEvents
            ++ (mergeOutcome { w with mergeCheckTimer := w.mergeCheckTimer - dt }).fusions := by
        simp [mergeStage, hp, ht, checkForMerges_fusionEvents]
      rw [heq] at he
      rcases List.mem_append.mp he with h2 | h2
      · exact Or.inl h2
      · exact Or.inr (mergeOutcome_good _ e h2)
    · have heq : (mergeStage dt w).fusionEvents = w.fusionEvents := by
        simp [mergeStage, hp, ht]
      rw [heq] at he
      exact Or.inl he
  · have heq : (mergeStage dt w).fusionEvents = w.fusionEvents := by
      simp [mergeStage, hp]
    rw [heq] at he
    exact Or.inl he

theorem MERGE_POINTS_nonneg (t : ShapeType) : 0 ≤ MERGE_POINTS t := by
  cases t <;> norm_num [MERGE_POINTS]

theorem mergeStage_score_le (dt : ℚ) (w : World) : w.score ≤ (mergeStage dt w).score := by
  by_cases hp : w.pendingMergeChecks
  · by_cases ht : w.mergeCheckTimer - dt ≤ 0
    · have heq : (mergeStage dt w).score
          = w.score
            + (((mergeOutcome { w with mergeCheckTimer := w.mergeCheckTimer - dt }).fusions).map
                (fun e => MERGE_POINTS e.result.type)).sum := by
        simp [mergeStage, hp, ht, checkForMerges_score, mergeOutcome, processPairs_score]
      rw [heq]
      have hnn : 0 ≤ (((mergeOutcome { w with mergeCheckTimer := w.mergeCheckTimer - dt }).fusions).map
          (fun e => MERGE_POINTS e.result.type)).sum := by
        apply List.sum_nonneg
        intro q hq
        simp only [List.mem_map] at hq
        obtain ⟨e, -, rfl⟩ := hq
        exact MERGE_POINTS_nonneg _
      linarith
    · have heq : (mergeStage dt w).score = w.score := by simp [mergeStage, hp, ht]
      rw [heq]
  · have heq : (mergeStage dt w).score = w.score := by simp [mergeStage, hp]
    rw [heq]

theorem mergeStage_gameOverEvents (dt : ℚ) (w : World) :
    (mergeStage dt w).gameOverEvents = w.gameOverEvents := by
  by_cases hp : w.pendingMergeChecks
  · by_cases ht : w.mergeCheckTimer - dt ≤ 0
    · simp [mergeStage, hp, ht, checkForMerges_gameOverEvents]
    · simp [mergeStage, hp, ht]
  · simp [mergeStage, hp]

theorem mergeStage_isGameOver (dt : ℚ) (w : World) :
    (mergeStage dt w).isGameOver = w.isGameOver := by
  by_cases hp : w.pendingMergeChecks
  · by_cases ht : w.mergeCheckTimer - dt ≤ 0
    · simp [mergeStage, hp, ht, checkForMerges_isGameOver]
    · simp [mergeStage, hp, ht]
  · simp [mergeStage, hp]

end Merger

namespace Merger

theorem restart_fusionEvents (cw : ℚ) (w : World) :
    (restart cw w).fusionEvents = w.fusionEvents := by
  unfold restart
  rw [generateNextShape_fusionEvents, generateNewActiveShape_fusionEvents]

theorem restart_gameOverEvents (cw : ℚ) (w : World) :
    (restart cw w).gameOverEvents = w.gameOverEvents := by
  unfold restart
  rw [generateNextShape_gameOverEvents, generateNewActiveShape_gameOverEvents_empty _ _ rfl]

theorem handleInteraction_fusionEvents (x y : ℚ) (t : InteractionType) (s : GameState) :
    (handleInteraction x y t s).world.fusionEvents = s.world.fusionEvents := by
  cases t with
  | move => cases hA : s.world.activeShape <;> simp [handleInteraction, hA, apply_ite]
  | down =>
      cases hA : s.world.activeShape <;>
        simp [handleInteraction, hA, dropActiveShape_fusionEvents, apply_ite]
  | up =>
      by_cases hgo : s.world.isGameOver
      · simp [handleInteraction, hgo, restart_fusionEvents]
      · cases hA : s.world.activeShape <;>
          simp [handleInteraction, hgo, hA, dropActiveShape_fusionEvents, apply_ite]
  | click =>
      by_cases hgo : s.world.isGameOver
      · simp [handleInteraction, hgo, restart_fusionEvents]
      · cases hA : s.world.activeShape <;>
          simp [handleInteraction, hgo, hA, dropActiveShape_fusionEvents, apply_ite]

theorem handleInteraction_gameOverEvents (x y : ℚ) (t : InteractionType) (s : GameState) :
    (handleInteraction x y t s).world.gameOverEvents = s.world.gameOverEvents := by
  cases t with
  | move => cases hA : s.world.activeShape <;> simp [handleInteraction, hA, apply_ite]
  | down =>
      cases hA : s.world.activeShape <;>
        simp [handleInteraction, hA, dropActiveShape_gameOverEvents, apply_ite]
  | up =>
      by_cases hgo : s.world.isGameOver
      · simp [handleInteraction, hgo, restart_gameOverEvents]
      · cases hA : s.world.activeShape <;>
          simp [handleInteraction, hgo, hA, dropActiveShape_gameOverEvents, apply_ite]
  | click =>
      by_cases hgo : s.world.isGameOver
      · simp [handleInteraction, hgo, restart_gameOverEvents]
      · cases hA : s.world.activeShape <;>
          simp [handleInteraction, hgo, hA, dropActiveShape_gameOverEvents, apply_ite]

theorem updateWorld_fusionEvents (cw CW CH g f r dt : ℚ) (w : World) :
    ∀ e ∈ (updateWorld cw CW CH g f r dt w).fusionEvents, e ∈ w.fusionEvents ∨ GoodFusion e := by
  intro e he
  by_cases hgo : w.isGameOver
  · rw [updateWorld, if_pos hgo] at he
    exact Or.inl he
  · rw [updateWorld, if_neg hgo, checkGameOverCondition_fusionEvents,
      updateMergeAnimations_fusionEvents, clearMergeCandidateFlags_fusionEvents] at he
    rcases mergeStage_fusionEvents dt _ e he with h2 | h2
    · rw [updatePhysics_fusionEvents, updateActiveShape_fusionEvents,
        handleInput_fusionEvents] at h2
      exact Or.inl h2
    · exact Or.inr h2

/-- C4: every fusion the engine ever commits joins two shapes of equal type
into one shape of the successor tier; in particular shapes of different
tiers never fuse and Star-tier shapes never fuse at all (no ninth tier).
Stated as preservation of the ghost fusion log's well-formedness under both
public mutating operations. -/
theorem fusion_tier_invariant (s : GameState) (deltaTime x y : ℚ) (t : InteractionType)
    (h : ∀ e ∈ s.world.fusionEvents, GoodFusion e) :
    (∀ e ∈ (update deltaTime s).world.fusionEvents, GoodFusion e) ∧
    (∀ e ∈ (handleInteraction x y t s).world.fusionEvents, GoodFusion e) := by
  constructor
  · intro e he
    have heq : (update deltaTime s).world = updateWorld s.canvasWidth s.config.containerWidth
        s.config.containerHeight (orDefault s.config.gravity GRAVITY)
        (orDefault s.config.friction FRICTION) (orDefault s.config.restitution RESTITUTION)
        deltaTime s.world := rfl
    rw [heq] at he
    rcases updateWorld_fusionEvents _ _ _ _ _ _ _ _ e he with h2 | h2
    · exact h e h2
    · exact h2
  · intro e he
    rw [handleInteraction_fusionEvents] at he
    exact h e he

theorem c4_witness :
    (∀ e ∈ (update 1 gameOverState).world.fusionEvents, GoodFusion e) ∧
    (∀ e ∈ (handleInteraction 0 0 InteractionType.move gameOverState).world.fusionEvents,
      GoodFusion e) :=
  fusion_tier_invariant gameOverState 1 0 0 InteractionType.move
    (by intro e he; simp [gameOverState, baseWorld] at he)

end Merger

namespace Merger

theorem update_gameOver_noop (dt : ℚ) (s : GameState) (h : s.world.isGameOver = true) :
    update dt s = s := by
  simp [update, updateWorld, h]

theorem updateWorld_gameOverEvents_length (cw CW CH g f r dt : ℚ) (w : World) :
    (updateWorld cw CW CH g f r dt w).gameOverEvents.length ≤ w.gameOverEvents.length + 2 := by
  by_cases hgo : w.isGameOver
  · rw [updateWorld, if_pos hgo]; omega
  · rw [updateWorld, if_neg hgo]
    have h1 := checkGameOverCondition_gameOverEvents_length
      (updateMergeAnimations dt (clearMergeCandidateFlags (mergeStage dt
        (updatePhysics CW CH g f r dt (updateActiveShape cw (handleInput cw dt w))))))
    rw [updateMergeAnimations_gameOverEvents, clearMergeCandidateFlags_gameOverEvents,
      mergeStage_gameOverEvents, updatePhysics_gameOverEvents] at h1
    have h2 := updateActiveShape_gameOverEvents_length cw (handleInput cw dt w)
    rw [handleInput_gameOverEvents] at h2
    omega

theorem generateNewActiveShape_events_or (cw : ℚ) (w : World) :
    (generateNewActiveShape cw w).gameOverEvents = w.gameOverEvents ∨
    (generateNewActiveShape cw w).isGameOver = true := by
  cases h : w.nextShape <;>
  · simp only [generateNewActiveShape, h]
    split_ifs <;> simp [generateNextShape, takeRand]

theorem updateActiveShape_events_or (cw : ℚ) (w : World) :
    (updateActiveShape cw w).gameOverEvents = w.gameOverEvents ∨
    (updateActiveShape cw w).isGameOver = true := by
  cases h : w.activeShape with
  | none => left; simp [updateActiveShape, h]
  | some a =>
      simp only [updateActiveShape, h]
      split_ifs
      · rcases generateNewActiveShape_events_or cw _ with he | hg
        · left; rw [he]
        · right; exact hg
      · left; simp
      · left; rfl

theorem checkGameOverCondition_events_or (w : World) :
    (checkGameOverCondition w).gameOverEvents = w.gameOverEvents ∨
    (checkGameOverCondition w).isGameOver = true := by
  unfold checkGameOverCondition
  split_ifs <;> simp

theorem checkGameOverCondition_isGameOver_of (w : World)
    (h : (checkGameOverCondition w).isGameOver = false) : w.isGameOver = false := by
  unfold checkGameOverCondition at h
  split_ifs at h with hc
  exact h

theorem clearMergeCandidateFlags_isGameOver (w : World) :
    (clearMergeCandidateFlags w).isGameOver = w.isGameOver := rfl

theorem updateMergeAnimations_isGameOver (dt : ℚ) (w : World) :
    (updateMergeAnimations dt w).isGameOver = w.isGameOver := rfl

/-- During one tick, `onGameOver` is invoked only if the tick ends with the
game-over state set: a run that comes out not game over appended nothing. -/
theorem updateWorld_events_of_not_gameOver (cw CW CH g f r dt : ℚ) (w : World)
    (h : (updateWorld cw CW CH g f r dt w).isGameOver = false) :
    (updateWorld cw CW CH g f r dt w).gameOverEvents = w.gameOverEvents := by
  by_cases hgo : w.isGameOver
  · rw [updateWorld, if_pos hgo]
  · rw [updateWorld, if_neg hgo] at h ⊢
    rcases checkGameOverCondition_events_or (updateMergeAnimations dt
        (clearMergeCandidateFlags (mergeStage dt (updatePhysics CW CH g f r dt
          (updateActiveShape cw (handleInput cw dt w)))))) with he | hgm
    · rw [he, updateMergeAnimations_gameOverEvents, clearMergeCandidateFlags_gameOverEvents,
        mergeStage_gameOverEvents, updatePhysics_gameOverEvents]
      have h3 : (updateActiveShape cw (handleInput cw dt w)).isGameOver = false := by
        have h2 := checkGameOverCondition_isGameOver_of _ h
        rw [updateMergeAnimations_isGameOver, clearMergeCandidateFlags_isGameOver,
          mergeStage_isGameOver, updatePhysics_isGameOver] at h2
        exact h2
      rcases updateActiveShape_events_or cw (handleInput cw dt w) with he2 | hg2
      · rw [he2, handleInput_gameOverEvents]
      · rw [hg2] at h3; simp at h3
    · rw [hgm] at h; simp at h

theorem update_events_of_not_gameOver (dt : ℚ) (s : GameState)
    (h : (update dt s).world.isGameOver = false) :
    (update dt s).world.gameOverEvents = s.world.gameOverEvents :=
  updateWorld_events_of_not_gameOver s.canvasWidth s.config.containerWidth
    s.config.containerHeight (orDefault s.config.gravity GRAVITY)
    (orDefault s.config.friction FRICTION) (orDefault s.config.restitution RESTITUTION)
    dt s.world h

theorem update_gameOverEvents_length (dt : ℚ) (s : GameState) :
    (update dt s).world.gameOverEvents.length ≤ s.world.gameOverEvents.length + 2 :=
  updateWorld_gameOverEvents_length s.canvasWidth s.config.containerWidth
    s.config.containerHeight (orDefault s.config.gravity GRAVITY)
    (orDefault s.config.friction FRICTION) (orDefault s.config.restitution RESTITUTION)
    dt s.world

theorem dropActiveShape_isGameOver (w : World) :
    (dropActiveShape w).isGameOver = w.isGameOver := by
  cases h : w.activeShape <;> simp [dropActiveShape, h, apply_ite]

theorem handleInteraction_isGameOver_no_restart (x y : ℚ) (t : InteractionType)
    (s : GameState) (h : opRestarts (Op.interact x y t) s = false) :
    (handleInteraction x y t s).world.isGameOver = s.world.isGameOver := by
  cases t with
  | move => cases hA : s.world.activeShape <;> simp [handleInteraction, hA, apply_ite]
  | down =>
      by_cases hgo : s.world.isGameOver
      · simp [handleInteraction, hgo]
      · cases hA : s.world.activeShape <;>
          simp [handleInteraction, hgo, hA, dropActiveShape_isGameOver, apply_ite]
  | up =>
      have hgo : s.world.isGameOver = false := by simpa [opRestarts] using h
      cases hA : s.world.activeShape <;>
        simp [handleInteraction, hgo, hA, dropActiveShape_isGameOver, apply_ite]
  | click =>
      have hgo : s.world.isGameOver = false := by simpa [opRestarts] using h
      cases hA : s.world.activeShape <;>
        simp [handleInteraction, hgo, hA, dropActiveShape_isGameOver, apply_ite]

/-- Trace invariant behind the per-game bound: along a restart-free trace,
the `onGameOver` log never grows past `N + 2`, where `N` bounds its length
while the game is running. -/
theorem execTrace_gameOverEvents_bound (ops : List Op) (s : GameState) (N : ℕ)
    (hfree : restartFree ops s = true)
    (hA : s.world.isGameOver = false → s.world.gameOverEvents.length ≤ N)
    (hB : s.world.gameOverEvents.length ≤ N + 2) :
    (execTrace ops s).world.gameOverEvents.length ≤ N + 2 := by
  induction ops generalizing s with
  | nil => exact hB
  | cons o rest ih =>
      rw [restartFree, Bool.and_eq_true, Bool.not_eq_true'] at hfree
      obtain ⟨h1, h2⟩ := hfree
      show (execTrace rest (execOp o s)).world.gameOverEvents.length ≤ N + 2
      cases o with
      | interact x y t =>
          refine ih (execOp (Op.interact x y t) s) h2 ?_ ?_
          · intro hgo
            rw [show execOp (Op.interact x y t) s = handleInteraction x y t s from rfl] at hgo ⊢
            rw [handleInteraction_gameOverEvents]
            rw [handleInteraction_isGameOver_no_restart x y t s h1] at hgo
            exact hA hgo
          · rw [show execOp (Op.interact x y t) s = handleInteraction x y t s from rfl,
              handleInteraction_gameOverEvents]
            exact hB
      | upd dt =>
          by_cases hgo : s.world.isGameOver = true
          · rw [show execOp (Op.upd dt) s = update dt s from rfl,
              update_gameOver_noop dt s hgo] at h2 ⊢
            exact ih s h2 hA hB
          · have hgo' : s.world.isGameOver = false := by
              revert hgo; cases s.world.isGameOver <;> simp
            refine ih (execOp (Op.upd dt) s) h2 ?_ ?_
            · intro hg2
              rw [show execOp (Op.upd dt) s = update dt s from rfl] at hg2 ⊢
              rw [update_events_of_not_gameOver dt s hg2]
              exact hA hgo'
            · rw [show execOp (Op.upd dt) s = update dt s from rfl]
              have hb := update_gameOverEvents_length dt s
              have ha := hA hgo'
              omega

/-- C2 (amended): `onGameOver` is invoked at most twice per game — across
any restart-free sequence of `update`/`handleInteraction` calls starting
from a non-game-over state, at most two events are ever appended to the
`onGameOver` log (both triggers may fire within the single tick that ends
the game, whose remaining physics/merge processing still runs); once the
game-over state is set, every subsequent `update` call is a complete no-op
until `restart`, and `handleInteraction` never invokes `onGameOver`. -/
theorem gameOver_at_most_twice_per_game (ops : List Op) (s s2 : GameState)
    (dt x y : ℚ) (t : InteractionType)
    (hgo : s.world.isGameOver = false)
    (hfree : restartFree ops s = true)
    (hgo2 : s2.world.isGameOver = true) :
    (execTrace ops s).world.gameOverEvents.length
      ≤ s.world.gameOverEvents.length + 2 ∧
    update dt s2 = s2 ∧
    (handleInteraction x y t s2).world.gameOverEvents = s2.world.gameOverEvents := by
  refine ⟨?_, update_gameOver_noop dt s2 hgo2, handleInteraction_gameOverEvents x y t s2⟩
  exact execTrace_gameOverEvents_bound ops s s.world.gameOverEvents.length hfree
    (fun _ => le_refl _) (by omega)

theorem c2_witness :
    (execTrace [Op.upd 1, Op.upd (1/2)] c2State).world.gameOverEvents.length
      ≤ c2State.world.gameOverEvents.length + 2 ∧
    update 1 gameOverState = gameOverState ∧
    (handleInteraction 0 0 InteractionType.move gameOverState).world.gameOverEvents
      = gameOverState.world.gameOverEvents :=
  gameOver_at_most_twice_per_game [Op.upd 1, Op.upd (1/2)] c2State gameOverState
    1 0 0 InteractionType.move rfl (by simp [restartFree, opRestarts]) rfl

set_option maxRecDepth 100000 in
/-- C2 counterexample: from a reachable-style state with no prior
`onGameOver` invocation, one `update` tick invokes `onGameOver` twice — the
spawn-blocked trigger fires when the settling shape's replacement spawns
overlapping a settled circle near the top, and the overflow-line trigger
fires again at the end of the very same tick. -/
theorem c2_counterexample :
    c2State.world.gameOverEvents = [] ∧
    (update (1/100) c2State).world.gameOverEvents = [0, 0] := by
  with_unfolding_all decide

theorem updateWorld_score_le (cw CW CH g f r dt : ℚ) (w : World) :
    w.score ≤ (updateWorld cw CW CH g f r dt w).score := by
  by_cases hgo : w.isGameOver
  · rw [updateWorld, if_pos hgo]
  · rw [updateWorld, if_neg hgo, checkGameOverCondition_score, updateMergeAnimations_score,
      clearMergeCandidateFlags_score]
    have h1 := mergeStage_score_le dt
      (updatePhysics CW CH g f r dt (updateActiveShape cw (handleInput cw dt w)))
    rw [updatePhysics_score, updateActiveShape_score, handleInput_score] at h1
    exact h1

theorem handleInteraction_score_no_restart (x y : ℚ) (t : InteractionType) (s : GameState)
    (h : opRestarts (Op.interact x y t) s = false) :
    (handleInteraction x y t s).world.score = s.world.score := by
  cases t with
  | move => cases hA : s.world.activeShape <;> simp [handleInteraction, hA, apply_ite]
  | down =>
      cases hA : s.world.activeShape <;>
        simp [handleInteraction, hA, dropActiveShape_score, apply_ite]
  | up =>
      have hgo : s.world.isGameOver = false := by simpa [opRestarts] using h
      cases hA : s.world.activeShape <;>
        simp [handleInteraction, hgo, hA, dropActiveShape_score, apply_ite]
  | click =>
      have hgo : s.world.isGameOver = false := by simpa [opRestarts] using h
      cases hA : s.world.activeShape <;>
        simp [handleInteraction, hgo, hA, dropActiveShape_score, apply_ite]

theorem execOp_score_mono (o : Op) (s : GameState) (h : opRestarts o s = false) :
    s.world.score ≤ (execOp o s).world.score := by
  cases o with
  | upd dt =>
      have heq : (execOp (Op.upd dt) s).world = updateWorld s.canvasWidth
          s.config.containerWidth s.config.containerHeight (orDefault s.config.gravity GRAVITY)
          (orDefault s.config.friction FRICTION) (orDefault s.config.restitution RESTITUTION)
          dt s.world := rfl
      rw [heq]
      exact updateWorld_score_le _ _ _ _ _ _ _ _
  | interact x y t =>
      have heq : execOp (Op.interact x y t) s = handleInteraction x y t s := rfl
      rw [heq, handleInteraction_score_no_restart x y t s h]

/-- C5 (amended): the score is non-decreasing across every sequence of
`update` and `handleInteraction` calls that contains no `up`/`click`
interaction performed while the game is over (such an interaction triggers
the internal `restart()`, which resets the score to 0). -/
theorem score_monotone_without_restart (ops : List Op) (s : GameState)
    (h : restartFree ops s = true) :
    s.world.score ≤ (execTrace ops s).world.score := by
  induction ops generalizing s with
  | nil => simp [execTrace]
  | cons o rest ih =>
      rw [restartFree, Bool.and_eq_true] at h
      have h1 : opRestarts o s = false := by
        rcases h with ⟨h1, -⟩
        simpa using h1
      have h2 := ih (execOp o s) h.2
      have h3 := execOp_score_mono o s h1
      have h4 : execTrace (o :: rest) s = execTrace rest (execOp o s) := rfl
      rw [h4]
      exact le_trans h3 h2

set_option maxRecDepth 100000 in
theorem c5_witness :
    c6State.world.score
      ≤ (execTrace [Op.upd 1, Op.interact 5 5 InteractionType.move] c6State).world.score :=
  score_monotone_without_restart [Op.upd 1, Op.interact 5 5 InteractionType.move] c6State
    (by with_unfolding_all decide)

set_option maxRecDepth 100000 in
/-- C5 counterexample: a single `handleInteraction` call (type `up`, game
over, score 10) drops the score from 10 to 0, because it internally invokes
`restart()`; so the score is not non-decreasing over update/handleInteraction
sequences that never call `restart` or the constructor directly. -/
theorem c5_counterexample :
    c5State.world.score = 10 ∧
    (handleInteraction 0 0 InteractionType.up c5State).world.score = 0 ∧
    ¬(c5State.world.score ≤ (handleInteraction 0 0 InteractionType.up c5State).world.score) := by
  with_unfolding_all decide

end Merger


namespace Merger

theorem gravityStep_radius_isStatic (g dt : ℚ) (sh : Shape) :
    (gravityStep g dt sh).radius = sh.radius ∧ (gravityStep g dt sh).isStatic = sh.isStatic := by
  unfold gravityStep
  split_ifs <;> exact ⟨rfl, rfl⟩

theorem groundFrictionStep_radius_isStatic (CH f : ℚ) (sh : Shape) :
    (groundFrictionStep CH f sh).radius = sh.radius ∧
    (groundFrictionStep CH f sh).isStatic = sh.isStatic := by
  unfold groundFrictionStep
  dsimp only
  split_ifs <;> exact ⟨rfl, rfl⟩

theorem angularDampStep_radius_isStatic (dt : ℚ) (sh : Shape) :
    (angularDampStep dt sh).radius = sh.radius ∧
    (angularDampStep dt sh).isStatic = sh.isStatic := by
  unfold angularDampStep
  dsimp only
  split_ifs <;> exact ⟨rfl, rfl⟩

theorem integratePositionStep_radius_isStatic (dt : ℚ) (sh : Shape) :
    (integratePositionStep dt sh).radius = sh.radius ∧
    (integratePositionStep dt sh).isStatic = sh.isStatic :=
  ⟨rfl, rfl⟩

theorem clampVelocityStep_radius_isStatic (sh : Shape) :
    (clampVelocityStep sh).radius = sh.radius ∧
    (clampVelocityStep sh).isStatic = sh.isStatic := by
  unfold clampVelocityStep
  dsimp only
  split_ifs <;> exact ⟨rfl, rfl⟩

theorem clampAngularStep_radius_isStatic (sh : Shape) :
    (clampAngularStep sh).radius = sh.radius ∧
    (clampAngularStep sh).isStatic = sh.isStatic := by
  unfold clampAngularStep
  split_ifs <;> exact ⟨rfl, rfl⟩

theorem integrateShape_radius_isStatic (CH g f dt : ℚ) (sh : Shape) :
    (integrateShape CH g f dt sh).radius = sh.radius ∧
    (integrateShape CH g f dt sh).isStatic = sh.isStatic := by
  unfold integrateShape
  rw [(clampAngularStep_radius_isStatic _).1, (clampVelocityStep_radius_isStatic _).1,
    (integratePositionStep_radius_isStatic _ _).1, (angularDampStep_radius_isStatic _ _).1,
    (groundFrictionStep_radius_isStatic _ _ _).1, (gravityStep_radius_isStatic _ _ _).1]
  rw [(clampAngularStep_radius_isStatic _).2, (clampVelocityStep_radius_isStatic _).2,
    (integratePositionStep_radius_isStatic _ _).2, (angularDampStep_radius_isStatic _ _).2,
    (groundFrictionStep_radius_isStatic _ _ _).2, (gravityStep_radius_isStatic _ _ _).2]
  exact ⟨rfl, rfl⟩

theorem trackRest_radius_isStatic (dt : ℚ) (sh : Shape) (p : Bool) (tm : ℚ) :
    (trackRest dt sh p tm).1.radius = sh.radius ∧
    (trackRest dt sh p tm).1.isStatic = sh.isStatic := by
  unfold trackRest
  dsimp only
  split_ifs <;> exact ⟨rfl, rfl⟩

theorem updateShapePhysics_radius_isStatic (CH g f dt : ℚ) (sh : Shape) (p : Bool) (tm : ℚ) :
    (updateShapePhysics CH g f dt sh p tm).1.radius = sh.radius ∧
    (updateShapePhysics CH g f dt sh p tm).1.isStatic = sh.isStatic := by
  unfold updateShapePhysics
  constructor
  · rw [(trackRest_radius_isStatic dt _ p tm).1, (integrateShape_radius_isStatic CH g f dt sh).1]
  · rw [(trackRest_radius_isStatic dt _ p tm).2, (integrateShape_radius_isStatic CH g f dt sh).2]

theorem resolveDynamicPair_radius_isStatic (nx ny r : ℚ) (a b : Shape) :
    (resolveDynamicPair nx ny r a b).1.radius = a.radius ∧
    (resolveDynamicPair nx ny r a b).1.isStatic = a.isStatic ∧
    (resolveDynamicPair nx ny r a b).2.radius = b.radius ∧
    (resolveDynamicPair nx ny r a b).2.isStatic = b.isStatic := by
  unfold resolveDynamicPair
  dsimp only
  split_ifs <;> exact ⟨rfl, rfl, rfl, rfl⟩

theorem resolveCollision_radius_isStatic (a b : Shape) (r : ℚ) :
    (resolveCollision a b r).1.radius = a.radius ∧
    (resolveCollision a b r).1.isStatic = a.isStatic ∧
    (resolveCollision a b r).2.radius = b.radius ∧
    (resolveCollision a b r).2.isStatic = b.isStatic := by
  unfold resolveCollision
  dsimp only
  split_ifs <;>
    simp [resolveDynamicPair_radius_isStatic, reflectShapeA, reflectShapeB]

theorem wallsStep_radius_isStatic (CW r : ℚ) (sh : Shape) :
    (wallsStep CW r sh).radius = sh.radius ∧ (wallsStep CW r sh).isStatic = sh.isStatic := by
  unfold wallsStep
  dsimp only
  split_ifs <;> exact ⟨rfl, rfl⟩

theorem floorStep_radius_isStatic (CH r : ℚ) (sh : Shape) :
    (floorStep CH r sh).radius = sh.radius ∧ (floorStep CH r sh).isStatic = sh.isStatic := by
  unfold floorStep
  dsimp only
  split_ifs <;> exact ⟨rfl, rfl⟩

theorem handleContainerCollisions_radius_isStatic (CW CH r : ℚ) (sh : Shape) :
    (handleContainerCollisions CW CH r sh).radius = sh.radius ∧
    (handleContainerCollisions CW CH r sh).isStatic = sh.isStatic := by
  unfold handleContainerCollisions
  constructor
  · rw [(floorStep_radius_isStatic _ _ _).1, (wallsStep_radius_isStatic _ _ _).1]
  · rw [(floorStep_radius_isStatic _ _ _).2, (wallsStep_radius_isStatic _ _ _).2]

theorem wallsStep_x_bounds (CW r : ℚ) (sh : Shape) (h : 2 * sh.radius ≤ CW) :
    0 ≤ (wallsStep CW r sh).position.x - (wallsStep CW r sh).radius ∧
    (wallsStep CW r sh).position.x + (wallsStep CW r sh).radius ≤ CW := by
  unfold wallsStep
  dsimp only
  split_ifs <;> constructor <;> dsimp only <;> linarith

theorem floorStep_keeps_x (CH r : ℚ) (sh : Shape) :
    (floorStep CH r sh).position.x = sh.position.x := by
  unfold floorStep
  dsimp only
  split_ifs <;> rfl

theorem floorStep_y_bound (CH r : ℚ) (sh : Shape) :
    (floorStep CH r sh).position.y + (floorStep CH r sh).radius ≤ CH ∨
    (floorStep CH r sh).position.y = sh.position.y := by
  unfold floorStep
  dsimp only
  split_ifs with h1 h2
  · left; dsimp only; linarith
  · left; dsimp only; linarith
  · right; rfl

theorem handleContainerCollisions_inBounds (CW CH r : ℚ) (sh : Shape)
    (h : 2 * sh.radius ≤ CW) :
    inBounds CW CH (handleContainerCollisions CW CH r sh) := by
  unfold handleContainerCollisions inBounds
  have hx := wallsStep_x_bounds CW r sh h
  have hfx := floorStep_keeps_x CH r (wallsStep CW r sh)
  have hfr := (floorStep_radius_isStatic CH r (wallsStep CW r sh)).1
  refine ⟨?_, ?_, ?_⟩
  · rw [hfx, hfr]; exact hx.1
  · rw [hfx, hfr]; exact hx.2
  · rcases floorStep_y_bound CH r (wallsStep CW r sh) with h2 | h2
    · exact h2
    · -- floor branch not taken: y + radius ≤ CH held already
      rw [h2, hfr]
      by_contra hlt
      push_neg at hlt
      -- then the floor branch would have fired and changed y; derive contradiction
      unfold floorStep at h2
      rw [if_pos (by linarith)] at h2
      dsimp only at h2
      split_ifs at h2 <;> dsimp only at h2 <;> nlinarith [h2]

end Merger

namespace Merger

theorem getD_set_ne (l : List Shape) (i k : ℕ) (a : Shape) (h : k ≠ i) :
    (l.set i a).getD k defaultShape = l.getD k defaultShape := by
  unfold List.getD
  rw [List.get?_eq_getElem?, List.get?_eq_getElem?, List.getElem?_set_ne (Ne.symm h)]

theorem getD_set_self (l : List Shape) (i : ℕ) (a : Shape) (h : i < l.length) :
    (l.set i a).getD i defaultShape = a := by
  unfold List.getD
  rw [List.get?_eq_getElem?, List.getElem?_set_self h]
  rfl

theorem map_getD_range (l : List Shape) :
    (List.range l.length).map (fun i => l.getD i defaultShape) = l := by
  induction l with
  | nil => simp
  | cons x l ih =>
      rw [List.length_cons, List.range_succ_eq_map, List.map_cons, List.map_map]
      simp only [Function.comp_def, List.getD_cons_succ, List.getD_cons_zero]
      rw [ih]

theorem forall_mem_iff_getD (l : List Shape) (P : Shape → Prop) :
    (∀ sh ∈ l, P sh) ↔ ∀ k, k < l.length → P (l.getD k defaultShape) := by
  constructor
  · intro h k hk
    rw [List.getD_eq_getElem _ _ hk]
    exact h _ (List.getElem_mem hk)
  · intro h a ha
    obtain ⟨k, hk, rfl⟩ := List.mem_iff_getElem.mp ha
    have := h k hk
    rwa [List.getD_eq_getElem _ _ hk] at this

theorem resolveAt_length (r : ℚ) (i j : ℕ) (shapes : List Shape) :
    (resolveAt r i j shapes).length = shapes.length := by
  unfold resolveAt
  dsimp only
  split_ifs <;> simp

theorem resolveAt_getD_ne (r : ℚ) (i j k : ℕ) (shapes : List Shape)
    (h1 : k ≠ i) (h2 : k ≠ j) :
    (resolveAt r i j shapes).getD k defaultShape = shapes.getD k defaultShape := by
  unfold resolveAt
  dsimp only
  split_ifs <;> first
    | rfl
    | rw [getD_set_ne _ _ _ _ h2, getD_set_ne _ _ _ _ h1]

theorem resolveAt_radius_isStatic (r : ℚ) (i j k : ℕ) (shapes : List Shape) :
    ((resolveAt r i j shapes).getD k defaultShape).radius
        = (shapes.getD k defaultShape).radius ∧
    ((resolveAt r i j shapes).getD k defaultShape).isStatic
        = (shapes.getD k defaultShape).isStatic := by
  unfold resolveAt
  dsimp only
  split_ifs with hs hc
  · exact ⟨rfl, rfl⟩
  · by_cases hkj : k = j
    · subst hkj
      by_cases hlen : k < shapes.length
      · rw [getD_set_self _ _ _ (by simpa using hlen)]
        constructor
        · rw [(resolveCollision_radius_isStatic _ _ _).2.2.1]
        · rw [(resolveCollision_radius_isStatic _ _ _).2.2.2]
      · rw [List.getD_eq_default _ _ (by simp; omega), List.getD_eq_default _ _ (by omega)]
        exact ⟨rfl, rfl⟩
    · by_cases hki : k = i
      · subst hki
        rw [getD_set_ne _ _ _ _ hkj]
        by_cases hlen : k < shapes.length
        · rw [getD_set_self _ _ _ hlen]
          constructor
          · rw [(resolveCollision_radius_isStatic _ _ _).1]
          · rw [(resolveCollision_radius_isStatic _ _ _).2.1]
        · rw [List.getD_eq_default _ _ (by simp; omega), List.getD_eq_default _ _ (by omega)]
          exact ⟨rfl, rfl⟩
      · rw [getD_set_ne _ _ _ _ hkj, getD_set_ne _ _ _ _ hki]
        exact ⟨rfl, rfl⟩
  · exact ⟨rfl, rfl⟩

theorem innerCollisions_length (r : ℚ) (i : ℕ) (fuel j : ℕ) (shapes : List Shape) :
    (innerCollisions r i fuel j shapes).length = shapes.length := by
  induction fuel generalizing j shapes with
  | zero => rfl
  | succ fuel ih =>
      show (innerCollisions r i fuel (j + 1) (resolveAt r i j shapes)).length = shapes.length
      rw [ih, resolveAt_length]

theorem innerCollisions_getD_lt (r : ℚ) (i : ℕ) (fuel j k : ℕ) (shapes : List Shape)
    (hki : k ≠ i) (hkj : k < j) :
    (innerCollisions r i fuel j shapes).getD k defaultShape = shapes.getD k defaultShape := by
  induction fuel generalizing j shapes with
  | zero => rfl
  | succ fuel ih =>
      show (innerCollisions r i fuel (j + 1) (resolveAt r i j shapes)).getD k defaultShape = _
      rw [ih (j + 1) _ (by omega), resolveAt_getD_ne _ _ _ _ _ hki (by omega)]

theorem innerCollisions_radius_isStatic (r : ℚ) (i : ℕ) (fuel j k : ℕ) (shapes : List Shape) :
    (((innerCollisions r i fuel j shapes).getD k defaultShape).radius
        = (shapes.getD k defaultShape).radius) ∧
    (((innerCollisions r i fuel j shapes).getD k defaultShape).isStatic
        = (shapes.getD k defaultShape).isStatic) := by
  induction fuel generalizing j shapes with
  | zero => exact ⟨rfl, rfl⟩
  | succ fuel ih =>
      constructor
      · show ((innerCollisions r i fuel (j + 1) (resolveAt r i j shapes)).getD k
            defaultShape).radius = _
        rw [(ih (j + 1) _).1, (resolveAt_radius_isStatic _ _ _ _ _).1]
      · show ((innerCollisions r i fuel (j + 1) (resolveAt r i j shapes)).getD k
            defaultShape).isStatic = _
        rw [(ih (j + 1) _).2, (resolveAt_radius_isStatic _ _ _ _ _).2]

end Merger

namespace Merger

theorem defaultShape_isStatic : defaultShape.isStatic = true := rfl

theorem outerStep_1_length (CW CH g f r dt : ℚ) (i : ℕ) (st : List Shape × Bool × ℚ) :
    (outerStep CW CH g f r dt i st).1.length = st.1.length := by
  unfold outerStep
  dsimp only
  split_ifs
  · rfl
  · simp [innerCollisions_length]

theorem outerStep_getD_lt (CW CH g f r dt : ℚ) (i k : ℕ) (st : List Shape × Bool × ℚ)
    (hk : k < i) :
    (outerStep CW CH g f r dt i st).1.getD k defaultShape = st.1.getD k defaultShape := by
  unfold outerStep
  dsimp only
  split_ifs
  · rfl
  · rw [getD_set_ne _ _ _ _ (by omega), innerCollisions_getD_lt _ _ _ _ _ _ (by omega) (by omega),
      getD_set_ne _ _ _ _ (by omega)]

theorem outerStep_radius_isStatic (CW CH g f r dt : ℚ) (i k : ℕ) (st : List Shape × Bool × ℚ) :
    (((outerStep CW CH g f r dt i st).1.getD k defaultShape).radius
        = (st.1.getD k defaultShape).radius) ∧
    (((outerStep CW CH g f r dt i st).1.getD k defaultShape).isStatic
        = (st.1.getD k defaultShape).isStatic) := by
  unfold outerStep
  dsimp only
  split_ifs with hs
  · exact ⟨rfl, rfl⟩
  · by_cases hki : k = i
    · subst hki
      have hlen : k < st.1.length := by
        by_contra hlen
        rw [List.getD_eq_default _ _ (by omega)] at hs
        exact hs defaultShape_isStatic
      have hlen2 : k < (innerCollisions r k (((st.1.set k
          (updateShapePhysics CH g f dt (st.1.getD k defaultShape) st.2.1 st.2.2).1)).length
            - (k + 1)) (k + 1) (st.1.set k
          (updateShapePhysics CH g f dt (st.1.getD k defaultShape) st.2.1 st.2.2).1)).length := by
        rw [innerCollisions_length]
        simpa using hlen
      rw [getD_set_self _ _ _ hlen2]
      constructor
      · rw [(handleContainerCollisions_radius_isStatic _ _ _ _).1,
          (innerCollisions_radius_isStatic _ _ _ _ _ _).1, getD_set_self _ _ _ hlen,
          (updateShapePhysics_radius_isStatic _ _ _ _ _ _ _).1]
      · rw [(handleContainerCollisions_radius_isStatic _ _ _ _).2,
          (innerCollisions_radius_isStatic _ _ _ _ _ _).2, getD_set_self _ _ _ hlen,
          (updateShapePhysics_radius_isStatic _ _ _ _ _ _ _).2]
    · rw [getD_set_ne _ _ _ _ hki]
      constructor
      · rw [(innerCollisions_radius_isStatic _ _ _ _ _ _).1, getD_set_ne _ _ _ _ hki]
      · rw [(innerCollisions_radius_isStatic _ _ _ _ _ _).2, getD_set_ne _ _ _ _ hki]

theorem outerStep_getD_i_inBounds (CW CH g f r dt : ℚ) (i : ℕ) (st : List Shape × Bool × ℚ)
    (h2r : 2 * (st.1.getD i defaultShape).radius ≤ CW)
    (hns : (st.1.getD i defaultShape).isStatic = false) :
    inBounds CW CH ((outerStep CW CH g f r dt i st).1.getD i defaultShape) := by
  unfold outerStep
  dsimp only
  rw [if_neg (by rw [hns]; simp)]
  have hlen : i < st.1.length := by
    by_contra hlen
    rw [List.getD_eq_default _ _ (by omega)] at hns
    rw [defaultShape_isStatic] at hns
    exact Bool.true_eq_false.mp hns
  have hlen2 : i < (innerCollisions r i (((st.1.set i
      (updateShapePhysics CH g f dt (st.1.getD i defaultShape) st.2.1 st.2.2).1)).length
        - (i + 1)) (i + 1) (st.1.set i
      (updateShapePhysics CH g f dt (st.1.getD i defaultShape) st.2.1 st.2.2).1)).length := by
    rw [innerCollisions_length]
    simpa using hlen
  rw [getD_set_self _ _ _ hlen2]
  apply handleContainerCollisions_inBounds
  rw [(innerCollisions_radius_isStatic _ _ _ _ _ _).1, getD_set_self _ _ _ hlen,
    (updateShapePhysics_radius_isStatic _ _ _ _ _ _ _).1]
  exact h2r

theorem outerLoop_1_length (CW CH g f r dt : ℚ) (fuel i : ℕ) (st : List Shape × Bool × ℚ) :
    (outerLoop CW CH g f r dt fuel i st).1.length = st.1.length := by
  induction fuel generalizing i st with
  | zero => rfl
  | succ fuel ih =>
      show (outerLoop CW CH g f r dt fuel (i + 1) (outerStep CW CH g f r dt i st)).1.length = _
      rw [ih, outerStep_1_length]

theorem outerLoop_getD_lt (CW CH g f r dt : ℚ) (fuel i k : ℕ) (st : List Shape × Bool × ℚ)
    (hk : k < i) :
    (outerLoop CW CH g f r dt fuel i st).1.getD k defaultShape = st.1.getD k defaultShape := by
  induction fuel generalizing i st with
  | zero => rfl
  | succ fuel ih =>
      show (outerLoop CW CH g f r dt fuel (i + 1) (outerStep CW CH g f r dt i st)).1.getD k
          defaultShape = _
      rw [ih (i + 1) _ (by omega), outerStep_getD_lt _ _ _ _ _ _ _ _ _ hk]

theorem outerLoop_radius_isStatic (CW CH g f r dt : ℚ) (fuel i k : ℕ)
    (st : List Shape × Bool × ℚ) :
    (((outerLoop CW CH g f r dt fuel i st).1.getD k defaultShape).radius
        = (st.1.getD k defaultShape).radius) ∧
    (((outerLoop CW CH g f r dt fuel i st).1.getD k defaultShape).isStatic
        = (st.1.getD k defaultShape).isStatic) := by
  induction fuel generalizing i st with
  | zero => exact ⟨rfl, rfl⟩
  | succ fuel ih =>
      constructor
      · show ((outerLoop CW CH g f r dt fuel (i + 1) (outerStep CW CH g f r dt i st)).1.getD k
            defaultShape).radius = _
        rw [(ih (i + 1) _).1, (outerStep_radius_isStatic _ _ _ _ _ _ _ _ _).1]
      · show ((outerLoop CW CH g f r dt fuel (i + 1) (outerStep CW CH g f r dt i st)).1.getD k
            defaultShape).isStatic = _
        rw [(ih (i + 1) _).2, (outerStep_radius_isStatic _ _ _ _ _ _ _ _ _).2]

theorem outerLoop_inBounds (CW CH g f r dt : ℚ) (fuel : ℕ) :
    ∀ (i : ℕ) (st : List Shape × Bool × ℚ),
      (∀ k, k < st.1.length → 2 * (st.1.getD k defaultShape).radius ≤ CW) →
      ∀ k, i ≤ k → k < i + fuel → k < st.1.length →
        (st.1.getD k defaultShape).isStatic = false →
        inBounds CW CH ((outerLoop CW CH g f r dt fuel i st).1.getD k defaultShape) := by
  induction fuel with
  | zero => intro i st hrad k hk1 hk2; omega
  | succ fuel ih =>
      intro i st hrad k hk1 hk2 hk3 hns
      show inBounds CW CH ((outerLoop CW CH g f r dt fuel (i + 1)
        (outerStep CW CH g f r dt i st)).1.getD k defaultShape)
      rcases Nat.lt_or_ge k (i + 1) with hki | hki
      · have hkeq : k = i := by omega
        subst hkeq
        rw [outerLoop_getD_lt _ _ _ _ _ _ _ _ _ _ (by omega)]
        exact outerStep_getD_i_inBounds CW CH g f r dt k st (hrad k hk3) hns
      · apply ih (i + 1) (outerStep CW CH g f r dt i st)
        · intro m hm
          rw [(outerStep_radius_isStatic _ _ _ _ _ _ _ _ _).1]
          exact hrad m (by rwa [outerStep_1_length] at hm)
        · exact hki
        · omega
        · rw [outerStep_1_length]; exact hk3
        · rw [(outerStep_radius_isStatic _ _ _ _ _ _ _ _ _).2]
          exact hns

end Merger

namespace Merger

theorem activeCollisions_2_length (r : ℚ) (fuel k0 : ℕ) (a : Shape) (shapes : List Shape) :
    (activeCollisions r fuel k0 a shapes).2.length = shapes.length := by
  induction fuel generalizing k0 a shapes with
  | zero => rfl
  | succ fuel ih =>
      unfold activeCollisions
      dsimp only
      split_ifs <;> (rw [ih]; try simp)

theorem activeCollisions_radius_isStatic (r : ℚ) (fuel k0 : ℕ) (a : Shape)
    (shapes : List Shape) (k : ℕ) :
    (((activeCollisions r fuel k0 a shapes).2.getD k defaultShape).radius
        = (shapes.getD k defaultShape).radius) ∧
    (((activeCollisions r fuel k0 a shapes).2.getD k defaultShape).isStatic
        = (shapes.getD k defaultShape).isStatic) := by
  induction fuel generalizing k0 a shapes with
  | zero => exact ⟨rfl, rfl⟩
  | succ fuel ih =>
      unfold activeCollisions
      dsimp only
      split_ifs with hc
  
      · refine ⟨?_, ?_⟩
        · rw [(ih _ _ _).1]
          by_cases hk : k = k0
          · subst hk
            by_cases hlen : k < shapes.length
            · rw [getD_set_self _ _ _ hlen,
                (resolveCollision_radius_isStatic _ _ _).2.2.1]
            · rw [List.getD_eq_default _ _ (by simp; omega),
                List.getD_eq_default _ _ (by omega)]
          · rw [getD_set_ne _ _ _ _ hk]
        · rw [(ih _ _ _).2]
          by_cases hk : k = k0
          · subst hk
            by_cases hlen : k < shapes.length
            · rw [getD_set_self _ _ _ hlen,
                (resolveCollision_radius_isStatic _ _ _).2.2.2]
            · rw [List.getD_eq_default _ _ (by simp; omega),
                List.getD_eq_default _ _ (by omega)]
          · rw [getD_set_ne _ _ _ _ hk]
      · exact ih _ _ _

theorem activeCollisions_radii_bound (r CW : ℚ) (fuel k0 : ℕ) (a : Shape)
    (shapes : List Shape) (hrad : ∀ sh ∈ shapes, 2 * sh.radius ≤ CW) :
    ∀ sh ∈ (activeCollisions r fuel k0 a shapes).2, 2 * sh.radius ≤ CW := by
  rw [forall_mem_iff_getD] at hrad ⊢
  intro k hk
  rw [(activeCollisions_radius_isStatic _ _ _ _ _ _).1]
  exact hrad k (by rwa [activeCollisions_2_length] at hk)

theorem outerLoop_full_inBounds (CW CH g f r dt : ℚ) (X : List Shape) (p : Bool) (tm : ℚ)
    (hrad : ∀ sh ∈ X, 2 * sh.radius ≤ CW) :
    ∀ sh ∈ (outerLoop CW CH g f r dt X.length 0 (X, p, tm)).1, sh.isStatic = false →
      inBounds CW CH sh := by
  rw [forall_mem_iff_getD X _] at hrad
  intro sh hsh hns
  obtain ⟨k, hk, rfl⟩ := List.mem_iff_getElem.mp hsh
  rw [← List.getD_eq_getElem _ defaultShape hk] at hns ⊢
  have hklen : k < X.length := by
    rw [outerLoop_1_length] at hk
    exact hk
  have hns0 : ((X, p, tm).1.getD k defaultShape).isStatic = false := by
    rw [← (outerLoop_radius_isStatic CW CH g f r dt X.length 0 k (X, p, tm)).2]
    exact hns
  exact outerLoop_inBounds CW CH g f r dt X.length 0 (X, p, tm) hrad k (by omega)
    (by omega) hklen hns0

theorem updatePhysics_shapes_inBounds (CW CH g f r dt : ℚ) (w : World)
    (hrad : ∀ sh ∈ w.shapes, 2 * sh.radius ≤ CW) :
    ∀ sh ∈ (updatePhysics CW CH g f r dt w).shapes, sh.isStatic = false →
      inBounds CW CH sh := by
  cases hA : w.activeShape with
  | none =>
      intro sh hsh hns
      simp only [updatePhysics, hA] at hsh
      exact outerLoop_full_inBounds CW CH g f r dt w.shapes _ _ hrad sh hsh hns
  | some a =>
      by_cases hs : a.isStatic
      · intro sh hsh hns
        simp only [updatePhysics, hA, hs] at hsh
        simp only [Bool.not_true, if_neg] at hsh
        exact outerLoop_full_inBounds CW CH g f r dt w.shapes _ _ hrad sh hsh hns
      · intro sh hsh hns
        simp only [updatePhysics, hA, hs] at hsh
        simp only [Bool.not_false, if_pos] at hsh
        have hrad2 := activeCollisions_radii_bound r CW w.shapes.length 0
          (updateShapePhysics CH g f dt a w.pendingMergeChecks w.mergeCheckTimer).1
          w.shapes hrad
        exact outerLoop_full_inBounds CW CH g f r dt _ _ _ hrad2 sh
          (by simpa using hsh) hns

end Merger

namespace Merger

theorem handleInput_shapes (cw dt : ℚ) (w : World) :
    (handleInput cw dt w).shapes = w.shapes := by
  cases h : w.activeShape <;> simp [handleInput, h]

theorem checkGameOverCondition_shapes (w : World) :
    (checkGameOverCondition w).shapes = w.shapes := by
  unfold checkGameOverCondition
  split_ifs <;> rfl

theorem updateMergeAnimations_shapes (dt : ℚ) (w : World) :
    (updateMergeAnimations dt w).shapes = w.shapes := rfl

theorem processPairs_removed_nil (shapes : List Shape) (pairs : List (ℕ × ℕ)) (score : ℚ)
    (h : (processPairs shapes pairs [] score).fusions = []) :
    ∀ n, n ∉ (processPairs shapes pairs [] score).removed := by
  intro n hn
  rw [processPairs_removed_iff] at hn
  rcases hn with hn | ⟨e, he, -⟩
  · simp at hn
  · rw [h] at he
    simp at he

theorem removeIdxs_of_not_mem (shapes : List Shape) (removed : List ℕ)
    (h : ∀ n, n ∉ removed) : removeIdxs shapes removed = shapes := by
  unfold removeIdxs
  have heq : (List.range shapes.length).filter (fun i => decide (i ∉ removed))
      = List.range shapes.length := by
    rw [List.filter_eq_self]
    intro a ha
    simpa using h a
  rw [heq, map_getD_range]

theorem checkForMerges_shapes_no_fusion (w : World)
    (h : (mergeOutcome w).fusions = []) :
    (checkForMerges w).shapes = w.shapes := by
  have hnew : (mergeOutcome w).newShapes = (mergeOutcome w).fusions.map (fun e => e.result) :=
    processPairs_newShapes w.shapes (collectPairs w.shapes) [] w.score
  have hrem : ∀ n, n ∉ (mergeOutcome w).removed :=
    processPairs_removed_nil w.shapes (collectPairs w.shapes) w.score h
  rw [checkForMerges_shapes, removeIdxs_of_not_mem _ _ hrem, hnew, h]
  simp

theorem mergeStage_shapes_no_fusion (dt : ℚ) (w : World)
    (h : (mergeStage dt w).fusionEvents = w.fusionEvents) :
    (mergeStage dt w).shapes = w.shapes := by
  by_cases hp : w.pendingMergeChecks
  · by_cases ht : w.mergeCheckTimer - dt ≤ 0
    · have hev : (mergeStage dt w).fusionEvents
          = w.fusionEvents
            ++ (mergeOutcome { w with mergeCheckTimer := w.mergeCheckTimer - dt }).fusions := by
        simp [mergeStage, hp, ht, checkForMerges_fusionEvents]
      rw [hev] at h
      have hf : (mergeOutcome { w with mergeCheckTimer := w.mergeCheckTimer - dt }).fusions
          = [] := by
        have h2 : w.fusionEvents ++ (mergeOutcome
            { w with mergeCheckTimer := w.mergeCheckTimer - dt }).fusions
              = w.fusionEvents ++ [] := by simpa using h
        exact List.append_cancel_left h2
      have hsh : (mergeStage dt w).shapes
          = (checkForMerges { w with mergeCheckTimer := w.mergeCheckTimer - dt }).shapes := by
        simp [mergeStage, hp, ht]
      rw [hsh, checkForMerges_shapes_no_fusion _ hf]
    · simp [mergeStage, hp, ht]
  · simp [mergeStage, hp]

theorem handleInput_active_radius (cw dt : ℚ) (w : World) (a : Shape)
    (h : (handleInput cw dt w).activeShape = some a) :
    ∃ a0, w.activeShape = some a0 ∧ a.radius = a0.radius := by
  cases hA : w.activeShape with
  | none => simp [handleInput, hA] at h
  | some a0 =>
      refine ⟨a0, rfl, ?_⟩
      simp only [handleInput, hA, Option.some.injEq] at h
      subst h
      split_ifs <;> rfl

theorem updateActiveShape_shapes_cases (cw : ℚ) (w : World) :
    (updateActiveShape cw w).shapes = w.shapes ∨
    ∃ a, w.activeShape = some a ∧
      (updateActiveShape cw w).shapes = w.shapes ++ [{ a with velocity := ⟨0, 0⟩ }] := by
  cases h : w.activeShape with
  | none => left; simp [updateActiveShape, h]
  | some a =>
      by_cases hs : a.isStatic
      · left
        simp [updateActiveShape, h, hs]
      · by_cases hv : |a.velocity.y| < 10
        · right
          exact ⟨a, rfl, by simp [updateActiveShape, h, hs, hv, generateNewActiveShape_shapes]⟩
        · left
          simp [updateActiveShape, h, hs, hv]

theorem updateWorld_fusionEvents_eq (cw CW CH g f r dt : ℚ) (w : World)
    (hgo : w.isGameOver = false) :
    (updateWorld cw CW CH g f r dt w).fusionEvents
      = (mergeStage dt (updatePhysics CW CH g f r dt (updateActiveShape cw
          (handleInput cw dt w)))).fusionEvents := by
  rw [updateWorld, if_neg (by rw [hgo]; simp), checkGameOverCondition_fusionEvents,
    updateMergeAnimations_fusionEvents, clearMergeCandidateFlags_fusionEvents]

/-- C8 (amended): after an `update` call that starts from a non-game-over
state, whose container admits every present shape (diameter at most the
container width), and during which no fusion is committed, every non-static
shape in the shape set is contained in the container: `0 ≤ x - radius`,
`x + radius ≤ containerWidth` and `y + radius ≤ containerHeight`.  (A tick
that does commit a fusion can violate this: the fused shape is created at
the sources' midpoint with the larger successor radius and is not
re-clamped until the next tick — see the counterexample.) -/
theorem update_settled_inBounds (s : GameState) (dt : ℚ)
    (hgo : s.world.isGameOver = false)
    (hrad : ∀ sh ∈ s.world.shapes, 2 * sh.radius ≤ s.config.containerWidth)
    (hact : ∀ a, s.world.activeShape = some a → 2 * a.radius ≤ s.config.containerWidth)
    (hnof : (update dt s).world.fusionEvents = s.world.fusionEvents) :
    ∀ sh ∈ (update dt s).world.shapes, sh.isStatic = false →
      inBounds s.config.containerWidth s.config.containerHeight sh := by
  have hworld : (update dt s).world = updateWorld s.canvasWidth s.config.containerWidth
      s.config.containerHeight (orDefault s.config.gravity GRAVITY)
      (orDefault s.config.friction FRICTION) (orDefault s.config.restitution RESTITUTION)
      dt s.world := rfl
  have h1 : (handleInput s.canvasWidth dt s.world).shapes = s.world.shapes :=
    handleInput_shapes _ _ _
  have hrad2 : ∀ sh ∈ (updateActiveShape s.canvasWidth (handleInput s.canvasWidth dt
      s.world)).shapes, 2 * sh.radius ≤ s.config.containerWidth := by
    rcases updateActiveShape_shapes_cases s.canvasWidth (handleInput s.canvasWidth dt s.world)
      with he | ⟨a, ha, he⟩
    · rw [he, h1]; exact hrad
    · rw [he, h1]
      intro sh hsh
      rcases List.mem_append.mp hsh with hsh | hsh
      · exact hrad sh hsh
      · simp only [List.mem_singleton] at hsh
        subst hsh
        obtain ⟨a0, ha0, hr⟩ := handleInput_active_radius s.canvasWidth dt s.world a ha
        have := hact a0 ha0
        show 2 * a.radius ≤ s.config.containerWidth
        rw [hr]
        exact this
  have hphys := updatePhysics_shapes_inBounds s.config.containerWidth s.config.containerHeight
    (orDefault s.config.gravity GRAVITY) (orDefault s.config.friction FRICTION)
    (orDefault s.config.restitution RESTITUTION) dt
    (updateActiveShape s.canvasWidth (handleInput s.canvasWidth dt s.world)) hrad2
  have hfe : (mergeStage dt (updatePhysics s.config.containerWidth s.config.containerHeight
      (orDefault s.config.gravity GRAVITY) (orDefault s.config.friction FRICTION)
      (orDefault s.config.restitution RESTITUTION) dt
      (updateActiveShape s.canvasWidth (handleInput s.canvasWidth dt
        s.world)))).fusionEvents
      = (updatePhysics s.config.containerWidth s.config.containerHeight
          (orDefault s.config.gravity GRAVITY) (orDefault s.config.friction FRICTION)
          (orDefault s.config.restitution RESTITUTION) dt
          (updateActiveShape s.canvasWidth (handleInput s.canvasWidth dt
            s.world))).fusionEvents := by
    have e1 := updateWorld_fusionEvents_eq s.canvasWidth s.config.containerWidth
      s.config.containerHeight (orDefault s.config.gravity GRAVITY)
      (orDefault s.config.friction FRICTION) (orDefault s.config.restitution RESTITUTION)
      dt s.world hgo
    rw [hworld, e1] at hnof
    rw [hnof, updatePhysics_fusionEvents, updateActiveShape_fusionEvents,
      handleInput_fusionEvents]
  have hms := mergeStage_shapes_no_fusion dt _ hfe
  intro sh hsh hns
  rw [hworld, updateWorld, if_neg (by rw [hgo]; simp), checkGameOverCondition_shapes,
    updateMergeAnimations_shapes] at hsh
  have hclear : (clearMergeCandidateFlags (mergeStage dt (updatePhysics
      s.config.containerWidth s.config.containerHeight (orDefault s.config.gravity GRAVITY)
      (orDefault s.config.friction FRICTION) (orDefault s.config.restitution RESTITUTION) dt
      (updateActiveShape s.canvasWidth (handleInput s.canvasWidth dt s.world))))).shapes
      = ((mergeStage dt (updatePhysics s.config.containerWidth s.config.containerHeight
          (orDefault s.config.gravity GRAVITY) (orDefault s.config.friction FRICTION)
          (orDefault s.config.restitution RESTITUTION) dt
          (updateActiveShape s.canvasWidth (handleInput s.canvasWidth dt
            s.world)))).shapes).map (fun sh => { sh with mergeCandidate := false }) := rfl
  rw [hclear, hms] at hsh
  obtain ⟨sh0, hsh0, rfl⟩ := List.mem_map.mp hsh
  exact hphys sh0 hsh0 hns

end Merger

namespace Merger

set_option maxRecDepth 100000 in
/-- C8 counterexample: two resting circles stacked at the left wall fuse
during this `update` into a Square of radius 35 centred at (25, 575); after
the call the (only, non-static) settled shape sticks out of the container on
the left and below, so boundary containment fails right after `update`. -/
theorem c8_counterexample :
    (update 1 c8State).world.shapes.length = 1 ∧
    ((update 1 c8State).world.shapes.getD 0 defaultShape).isStatic = false ∧
    ((update 1 c8State).world.shapes.getD 0 defaultShape).position.x
        - ((update 1 c8State).world.shapes.getD 0 defaultShape).radius < 0 ∧
    ((update 1 c8State).world.shapes.getD 0 defaultShape).position.y
        + ((update 1 c8State).world.shapes.getD 0 defaultShape).radius
        > c8State.config.containerHeight ∧
    ¬ inBounds c8State.config.containerWidth c8State.config.containerHeight
        ((update 1 c8State).world.shapes.getD 0 defaultShape) := by
  with_unfolding_all decide

set_option maxRecDepth 100000 in
theorem getD_mem (l : List Shape) (n : ℕ) (d : Shape) (h : n < l.length) :
    l.getD n d ∈ l := by
  rw [List.getD_eq_getElem l d h]
  exact List.getElem_mem h

set_option maxRecDepth 100000 in
theorem c8_witness :
    inBounds c8SettleState.config.containerWidth c8SettleState.config.containerHeight
      ((update (1/100) c8SettleState).world.shapes.getD 0 defaultShape) :=
  update_settled_inBounds c8SettleState (1/100) rfl
    (by with_unfolding_all decide)
    (fun a ha => Option.noConfusion ha)
    (by with_unfolding_all decide)
    ((update (1/100) c8SettleState).world.shapes.getD 0 defaultShape)
    (getD_mem _ 0 _ (by with_unfolding_all decide))
    (by with_unfolding_all decide)

end Merger

namespace Merger

theorem orDefault_orDefault (v d : ℚ) : orDefault (orDefault v d) d = orDefault v d := by
  unfold orDefault
  split_ifs <;> simp_all

/-- C10: a zero-valued gravity, friction or restitution entry is silently
replaced by the corresponding default (gravity 980, friction 1/20,
restitution 1/2) when the physics constants are read, so every `update` tick
behaves exactly as if the resolved configuration had been supplied. -/
theorem update_zero_config_uses_defaults (dt : ℚ) (s : GameState) :
    (update dt s).world = (update dt { s with config := resolveConfig s.config }).world := by
  unfold update resolveConfig
  dsimp only
  rw [orDefault_orDefault, orDefault_orDefault, orDefault_orDefault]

theorem ratSqrt_zero : ratSqrt 0 = 0 := by
  with_unfolding_all rfl

/-- C9: when the two shapes' centers coincide exactly, the distance is zero
and `resolveCollision` skips the pair, returning both shapes completely
unchanged (position, velocity and angular velocity); over ℚ no NaN can
arise, the guarded division simply never happens. -/
theorem resolveCollision_skips_coincident (a b : Shape) (r : ℚ)
    (h : a.position = b.position) :
    resolveCollision a b r = (a, b) := by
  unfold resolveCollision
  rw [← h]
  simp [ratSqrt_zero]

theorem c9_witness :
    resolveCollision (mkCircle 100 100 false) (mkCircle 100 100 false) (1/2)
      = (mkCircle 100 100 false, mkCircle 100 100 false) :=
  resolveCollision_skips_coincident (mkCircle 100 100 false) (mkCircle 100 100 false)
    (1/2) rfl

/-- C6 (amended): a `move` interaction on a static active shape sets the
stored drop position and the shape's x-coordinate to `x` clamped to
`[radius, canvasWidth - radius]` — the *canvas* width, which coincides with
the configured container width only when the latter is not overridden; the
y-coordinate is unchanged. -/
theorem handleInteraction_move_clamps_to_canvas (x y : ℚ) (s : GameState) (a : Shape)
    (ha : s.world.activeShape = some a) (hs : a.isStatic = true) :
    (handleInteraction x y InteractionType.move s).world.dropPosition
      = max a.radius (min (s.canvasWidth - a.radius) x) ∧
    (handleInteraction x y InteractionType.move s).world.activeShape
      = some { a with position :=
          ⟨max a.radius (min (s.canvasWidth - a.radius) x), a.position.y⟩ } := by
  simp [handleInteraction, ha, hs]

theorem c6_witness :
    (handleInteraction 700 0 InteractionType.move c6State).world.dropPosition
      = max (mkCircle 400 35 true).radius
          (min (c6State.canvasWidth - (mkCircle 400 35 true).radius) 700) ∧
    (handleInteraction 700 0 InteractionType.move c6State).world.activeShape
      = some { mkCircle 400 35 true with position :=
          ⟨max (mkCircle 400 35 true).radius
            (min (c6State.canvasWidth - (mkCircle 400 35 true).radius) 700),
           (mkCircle 400 35 true).position.y⟩ } :=
  handleInteraction_move_clamps_to_canvas 700 0 c6State (mkCircle 400 35 true) rfl rfl

set_option maxRecDepth 100000 in
/-- C6 counterexample: with an 800-wide canvas and a 500-wide configured
container, moving to x = 700 stores drop position 700, beyond the claimed
upper clamp `containerWidth - radius = 475` — the code clamps with the
canvas width, not the configured container width. -/
theorem c6_counterexample :
    (handleInteraction 700 0 InteractionType.move c6State).world.dropPosition = 700 ∧
    ¬ ((handleInteraction 700 0 InteractionType.move c6State).world.dropPosition
        ≤ c6State.config.containerWidth - 25) := by
  constructor
  · with_unfolding_all decide
  · with_unfolding_all decide

/-- C7: for a `down`, `up` or `click` interaction: when the game is not over
and the active shape exists and is static, the shape is released — its
`isStatic` flag becomes `false` and its velocity becomes exactly `(0, 50)`
immediately; when the game is over, `up`/`click` triggers the internal
`restart` (on the world with the mouse position recorded and dragging
cleared). -/
theorem handleInteraction_release_semantics (x y : ℚ) (t : InteractionType) (s : GameState)
    (ht : t = InteractionType.down ∨ t = InteractionType.up ∨ t = InteractionType.click) :
    (s.world.isGameOver = false →
      ∀ a, s.world.activeShape = some a → a.isStatic = true →
        (handleInteraction x y t s).world.activeShape
          = some { a with isStatic := false, velocity := ⟨0, 50⟩ }) ∧
    (s.world.isGameOver = true →
      (t = InteractionType.up ∨ t = InteractionType.click) →
      (handleInteraction x y t s).world
        = restart s.canvasWidth
            { s.world with mousePosition := ⟨x, y⟩, isDragging := false }) := by
  rcases ht with rfl | rfl | rfl
  · refine ⟨?_, ?_⟩
    · intro hgo a ha hs
      simp [handleInteraction, dropActiveShape, hgo, ha, hs]
    · rintro _ (h | h) <;> cases h
  · refine ⟨?_, ?_⟩
    · intro hgo a ha hs
      simp [handleInteraction, dropActiveShape, hgo, ha, hs]
    · intro hgo _
      simp [handleInteraction, hgo]
  · refine ⟨?_, ?_⟩
    · intro hgo a ha hs
      simp [handleInteraction, dropActiveShape, hgo, ha, hs]
    · intro hgo _
      simp [handleInteraction, hgo]

theorem c7_witness :
    (handleInteraction 10 20 InteractionType.up c6State).world.activeShape
      = some { mkCircle 400 35 true with isStatic := false, velocity := ⟨0, 50⟩ } :=
  (handleInteraction_release_semantics 10 20 InteractionType.up c6State
      (Or.inr (Or.inl rfl))).1 rfl (mkCircle 400 35 true) rfl rfl

end Merger
